import Mathlib

/-!
# BitShield procurement-risk pipeline: a shallow embedding

This file embeds the analysis pipeline of the BitShield repository
(`src/agents/workflow.py`, `src/agents/nodes.py`, `src/state/agent_state.py`,
`src/utils/price_analyzer.py`, `src/utils/semantic_analyzer.py`,
`src/utils/stylometry.py`, `src/utils/relationship_graph.py`) and proves
properties of the embedded code.

Modelling conventions:

* Python `float` values are modelled as `ℚ`.  Standard deviations are square
  roots and hence not rational; every comparison the code makes against a
  standard deviation `σ` is therefore phrased through its square
  (`σ < c ↔ σ² < c²` for `c ≥ 0`), which is exact.
* Python `dict`s (insertion ordered, key update keeps position and replaces
  the value) are modelled as association lists with the operations below.
* External providers (pdfplumber text extraction, the sentence-transformer
  embedding model, the spaCy/sklearn stylometry similarity, the networkx
  community/clique algorithms, the LLM) are inputs of the embedding,
  collected in a `Providers` record.  Everything downstream of a provider
  call is translated from the repository source.
* The LangGraph `messages` channel (chat-message log) is not modelled: no
  analysis outcome depends on it.
-/

namespace BitShield

/-! ## Python dict model (insertion-ordered association lists) -/

/-- Python dict assignment `d[k] = v`: if the key is present its value is
replaced in place, otherwise the binding is appended. -/
def dictInsert (d : List (String × α)) (k : String) (v : α) : List (String × α) :=
  if d.any (fun p => p.1 = k) then
    d.map (fun p => if p.1 = k then (k, v) else p)
  else
    d ++ [(k, v)]

/-- Build a dict from a list of bindings, later bindings overwriting earlier
ones (Python dict-comprehension semantics). -/
def dictOf (l : List (String × α)) : List (String × α) :=
  l.foldl (fun d p => dictInsert d p.1 p.2) []

/-- Python `d.get(k)` / `k in d` lookup. -/
def dictGet? (d : List (String × α)) (k : String) : Option α :=
  (d.find? (fun p => p.1 = k)).map (fun p => p.2)

/-- Python `d.setdefault(k, []).append(v)`. -/
def dictAppend (d : List (String × List α)) (k : String) (v : α) :
    List (String × List α) :=
  match dictGet? d k with
  | some l => dictInsert d k (l ++ [v])
  | none => d ++ [(k, [v])]

/-! ## Numeric utilities (numpy counterparts, over `ℚ`) -/

/-- `np.mean` (population mean). -/
def qmean (l : List ℚ) : ℚ := l.sum / l.length

/-- Population variance, the square of `np.std` (`ddof = 0`). -/
def qvariance (l : List ℚ) : ℚ :=
  ((l.map (fun p => (p - qmean l) ^ 2)).sum) / l.length

/-- `np.percentile` with the default linear interpolation between order
statistics, evaluated on the ascending sort of the list. -/
def qpercentile (l : List ℚ) (q : ℚ) : ℚ :=
  let s := l.insertionSort (· ≤ ·)
  let rank : ℚ := ((l.length : ℚ) - 1) * q / 100
  let lo : ℕ := (Int.toNat ⌊rank⌋)
  let frac : ℚ := rank - (lo : ℚ)
  let a := s.getD lo 0
  let b := s.getD (lo + 1) a
  a + frac * (b - a)

/-- Python `max` over a list of scores with `0.0` for the empty list
(`max(risk_scores) if risk_scores else 0.0`). -/
def qmaxD (l : List ℚ) : ℚ :=
  match l with
  | [] => 0
  | x :: xs => xs.foldl max x

/-- Whether a Python float is an exact multiple of the positive constant `d`
(`p % d == 0`). -/
def qdivisible (p d : ℚ) : Bool := (p / d).den = 1

/-- All ordered pairs `(l[i], l[j])` with `i < j`, in the row-major order of
the nested Python loops `for i ...: for j in range(i+1, ...)`. -/
def upperPairs : List α → List (α × α)
  | [] => []
  | x :: xs => xs.map (fun y => (x, y)) ++ upperPairs xs

/-! ## Price analyzer (`src/utils/price_analyzer.py`) -/

/-- Result record of `PriceAnalyzer.detect_outliers` in the `len ≥ 3` case.
`std_dev` and `coefficient_variation` are square roots, so the record keeps
the exact `variance` (= `std_dev²`) instead; the Boolean comparisons the
code performs on them are recovered through `cvLtTenth` and the stored
outlier flags. -/
structure OutlierStats where
  mean : ℚ
  median : ℚ
  variance : ℚ
  z_score_outliers : List Bool
  iqr_outliers : List Bool
  price_min : ℚ
  price_max : ℚ
  deriving DecidableEq

/-- The comparison `coefficient_variation < 0.1` on the stored value
`std/mean if mean > 0 else 0`.  For `mean > 0`:
`σ/μ < 1/10 ↔ 100·σ² < μ²`; otherwise the stored value is `0 < 0.1`. -/
def cvLtTenth (mean variance : ℚ) : Bool :=
  if 0 < mean then 100 * variance < mean ^ 2 else true

/-- `PriceAnalyzer.detect_outliers` (threshold `τ` is
`self.outlier_threshold`, default 2.0).  Returns `none` for the
`{"error": "Need at least 3 bids..."}` dictionary.  A z-score flag
`|pᵢ - μ|/σ > τ` is phrased as `(pᵢ - μ)² > τ²·σ²`; when `σ = 0` numpy
produces NaN z-scores and every comparison is false, which the squared form
reproduces. -/
def detect_outliers (τ : ℚ) (prices : List ℚ) : Option OutlierStats :=
  if prices.length < 3 then none
  else
    let μ := qmean prices
    let v := qvariance prices
    let q1 := qpercentile prices 25
    let q3 := qpercentile prices 75
    let iqr := q3 - q1
    let lowerB := q1 - (3 / 2) * iqr
    let upperB := q3 + (3 / 2) * iqr
    some {
      mean := μ
      median := qpercentile prices 50
      variance := v
      z_score_outliers := prices.map (fun p => decide ((p - μ) ^ 2 > τ ^ 2 * v))
      iqr_outliers := prices.map (fun p => decide (p < lowerB ∨ p > upperB))
      price_min := (prices.insertionSort (· ≤ ·)).headD 0
      price_max := (prices.insertionSort (· ≤ ·)).getLastD 0 }

/-- One `clustered_high_bids` record produced by
`PriceAnalyzer.detect_cover_bidding` (`difference_pct` is
`100 * |price2 - price1| / price1`, derived from the stored prices). -/
structure CoverPattern where
  bidder1 : String
  bidder2 : String
  price1 : ℚ
  price2 : ℚ
  deriving DecidableEq

/-- Result of `PriceAnalyzer.detect_cover_bidding`.  `bounds` is
`(lowest_bid, highest_bid)`, present only on the `len ≥ 2` path. -/
structure CoverResult where
  bounds : Option (ℚ × ℚ)
  suspicious_patterns : List CoverPattern
  deriving DecidableEq

/-- `PriceAnalyzer.detect_cover_bidding` (margin `m` is
`margin_threshold`, default 0.05).  The bid list is sorted ascending by
price (`np.argsort`; its tie order for equal prices is unspecified, but no
property proved below distinguishes tie orders).  The Python body divides by
`lowest_bid` on every iteration of the outer loop, so with at least two bids
and a lowest bid of exactly `0` it raises `ZeroDivisionError`; that is the
`.error` case.  When `lowest_bid < 0` the gap `(pᵢ - lowest)/lowest` is
nonpositive and the outer test never fires; inner divisions by
`sorted_prices[i]` only run when `pᵢ > 1.15 · lowest > 0`. -/
def detect_cover_bidding (m : ℚ) (bidder_prices : List (String × ℚ)) :
    Except String CoverResult :=
  if bidder_prices.length < 2 then .ok { bounds := none, suspicious_patterns := [] }
  else
    let sorted := bidder_prices.insertionSort (fun a b => a.2 ≤ b.2)
    let lowest := (sorted.headD ("", 0)).2
    if lowest = 0 then .error "float division by zero"
    else
      let higher := sorted.drop 1
      let patterns :=
        (upperPairs higher).filterMap (fun pq =>
          let (bi, pi) := pq.1
          let (bj, pj) := pq.2
          if (pi - lowest) / lowest > 3 / 20 ∧ |pj - pi| / pi < m then
            some { bidder1 := bi, bidder2 := bj, price1 := pi, price2 := pj }
          else none)
      .ok { bounds := some (lowest, (sorted.getLastD ("", 0)).2)
            suspicious_patterns := patterns }

/-- Result record of `PriceAnalyzer.analyze_price_patterns`. -/
structure PriceAnalysis where
  outlier_analysis : Option OutlierStats
  cover_bidding_analysis : CoverResult
  round_number_ratio : ℚ
  risk_score : ℚ
  risk_indicators : List String
  severity : String
  deriving DecidableEq

/-- The round-number fraction: the share of bids divisible by 1000 or by
500 (`0` of an empty list). -/
def roundNumberRatio (prices : List ℚ) : ℚ :=
  if prices.isEmpty then 0
  else ((prices.countP (fun p => qdivisible p 1000 || qdivisible p 500)) : ℚ) / prices.length

/-- `PriceAnalyzer.analyze_price_patterns`.  A `ZeroDivisionError` from
`detect_cover_bidding` propagates (the method has no handler); the
`.get("coefficient_variation", 0)` read means the `< 0.1` test is performed
against `0` whenever `detect_outliers` returned the error dictionary. -/
def analyze_price_patterns (bidder_prices : List (String × ℚ)) :
    Except String PriceAnalysis := do
  let prices := bidder_prices.map (fun p => p.2)
  let outlierResults := detect_outliers 2 prices
  let coverResults ← detect_cover_bidding (1 / 20) bidder_prices
  let roundRatio : ℚ := roundNumberRatio prices
  let cvSmall :=
    match outlierResults with
    | none => true
    | some s => cvLtTenth s.mean s.variance
  let ind1 : List String :=
    if cvSmall then ["Low price variation (potential coordination)"] else []
  let ind2 : List String :=
    if coverResults.suspicious_patterns.isEmpty then [] else ["Clustered high bids detected"]
  let ind3 : List String :=
    if roundRatio > 1 / 2 then ["High proportion of round number bids"] else []
  let score : ℚ :=
    (if cvSmall then 3 / 10 else 0) +
    (if coverResults.suspicious_patterns.isEmpty then 0 else 2 / 5) +
    (if roundRatio > 1 / 2 then 1 / 5 else 0)
  let score := min score 1
  .ok {
    outlier_analysis := outlierResults
    cover_bidding_analysis := coverResults
    round_number_ratio := roundRatio
    risk_score := score
    risk_indicators := ind1 ++ ind2 ++ ind3
    severity := if score > 7 / 10 then "high" else if score > 2 / 5 then "medium" else "low" }

/-- The price risk score exactly as the specification words it (claim C5):
here the `+0.3` test reads the coefficient of variation of the bid list
itself (`σ/μ`, the `< 0.1` comparison performed by `cvLtTenth` on the
list's mean and variance), regardless of how many bids there are.  This
definition follows the spec's words and exists only to be compared with
`analyze_price_patterns`, which is translated from the source. -/
def claimedPriceRiskScore (bidder_prices : List (String × ℚ)) : ℚ :=
  let prices := bidder_prices.map (fun p => p.2)
  min ((if cvLtTenth (qmean prices) (qvariance prices) then 3 / 10 else 0) +
       (match detect_cover_bidding (1 / 20) bidder_prices with
        | .ok r => if r.suspicious_patterns.isEmpty then 0 else 2 / 5
        | .error _ => 0) +
       (if roundNumberRatio prices > 1 / 2 then 1 / 5 else 0)) 1

/-! ## Data model (`src/state/agent_state.py`) -/

/-- `RiskSignal` (pydantic model).  The heterogeneous `evidence` dictionary
(an arbitrary engine-chosen payload) is not modelled; every other field is.
-/
structure RiskSignal where
  signal_type : String
  severity : String
  score : ℚ
  description : String
  affected_bidders : List String
  deriving DecidableEq

/-- `BidderInfo` (pydantic model).  `contact_info` is an association list;
Python `None` and `{}` are both falsy at the single use site
(`if bidder.contact_info:`), so both are represented by `[]`.  The unused
`metadata` field is omitted. -/
structure BidderInfo where
  bidder_id : String
  name : String
  bid_amount : ℚ
  documents : List String
  contact_info : List (String × String)
  deriving DecidableEq

/-! ## Semantic analyzer (`src/utils/semantic_analyzer.py`) -/

/-- One entry of `cross_bidder_similarities`. -/
structure SimPair where
  bidder1 : String
  bidder2 : String
  document1 : String
  document2 : String
  similarity : ℚ
  deriving DecidableEq

/-- Result record of `SemanticAnalyzer.analyze_bidder_documents`. -/
structure SimilarityAnalysis where
  total_comparisons : ℕ
  cross_bidder_similarities : List SimPair
  high_risk_pairs : List SimPair
  deriving DecidableEq

/-- `doc_id.split(":")[0]`: the part of a pseudo-ID before the first colon
(the whole string when it has no colon). -/
def bidderPart (s : String) : String := ⟨s.data.takeWhile (fun c => c ≠ ':')⟩

/-- `SemanticAnalyzer.find_similar_documents`, with the embedding model as
an oracle: `sim t₁ t₂` is the cosine similarity of the embeddings of the two
texts, and `embedFailure = some e` means `model.encode` raises `e`.  The
model is only invoked when there are at least two texts; with fewer the
function returns `[]` without touching the provider.  Pairs meeting the
threshold are sorted by descending similarity (`list.sort(key=..., reverse=True)`,
stable). -/
def find_similar_documents (sim : String → String → ℚ)
    (embedFailure : Option String) (texts : List (String × String)) (threshold : ℚ) :
    Except String (List (String × String × ℚ)) :=
  if texts.length < 2 then .ok []
  else
    match embedFailure with
    | some e => .error e
    | none =>
      let pairs := (upperPairs texts).filterMap (fun dd =>
        let s := sim dd.1.2 dd.2.2
        if s ≥ threshold then some (dd.1.1, dd.2.1, s) else none)
      .ok (pairs.insertionSort (fun a b => b.2.2 ≤ a.2.2))

/-- `SemanticAnalyzer.analyze_bidder_documents`. -/
def analyze_bidder_documents (sim : String → String → ℚ)
    (embedFailure : Option String)
    (bidder_texts : List (String × List (String × String))) :
    Except String SimilarityAnalysis := do
  let allDocs := dictOf (bidder_texts.flatMap (fun bd =>
    bd.2.map (fun dt => (bd.1 ++ ":" ++ dt.1, dt.2))))
  let similarPairs ← find_similar_documents sim embedFailure allDocs (7 / 10)
  let cross := similarPairs.filterMap (fun p =>
    let b1 := bidderPart p.1
    let b2 := bidderPart p.2.1
    if b1 ≠ b2 then
      some { bidder1 := b1, bidder2 := b2, document1 := p.1, document2 := p.2.1,
             similarity := p.2.2 }
    else none)
  .ok { total_comparisons := similarPairs.length
        cross_bidder_similarities := cross
        high_risk_pairs := cross.filter (fun p => p.similarity > 17 / 20) }

/-! ## Stylometry analyzer (`src/utils/stylometry.py`)

The engine's numeric core (spaCy tagging / fallback tokenizing, the sklearn
cosine over eight-component feature vectors) runs behind external models; it
is represented by a provider oracle `styloMatches` that maps the per-bidder
combined texts to the `similarity_pairs` the comparison produces.  The
in-repository plumbing around it — combining each bidder's documents with
`" ".join`, and the `len < 2` guard of `compare_writing_styles`, which
returns an error dictionary so that `analyze_bidder_styles` reads back empty
matches — is translated faithfully. -/

/-- One entry of `suspicious_style_matches`. -/
structure StyloMatch where
  doc1 : String
  doc2 : String
  similarity : ℚ
  deriving DecidableEq

/-- Result record of `StylometryAnalyzer.analyze_bidder_styles`
(`bidder_features` is part of the provider-computed payload and is not
modelled). -/
structure StylometryAnalysis where
  suspicious_style_matches : List StyloMatch
  deriving DecidableEq

/-- Python `" ".join(l)`. -/
def joinSpace (l : List String) : String :=
  ⟨((l.map (fun s => s.data)).intersperse [' ']).flatten⟩

/-- Python `text.split()` yields no tokens: the text is empty or all
whitespace.  In both the spaCy path (`total_tokens == 0`) and the fallback
path (`if not words`) this is exactly when `extract_stylometric_features`
returns the empty dictionary. -/
def hasNoTokens (s : String) : Bool := s.data.all (fun c => c.isWhitespace)

/-- `StylometryAnalyzer.analyze_bidder_styles` with the spaCy/sklearn
numeric core as an oracle, including the reachable in-repo failure:
`compare_writing_styles` takes `feature_names` from the **first** bidder's
feature dictionary, so with ≥ 2 bidders whose first combined text has no
tokens the feature matrix has zero columns and sklearn's
`cosine_similarity` raises `ValueError` (message as scikit-learn formats
it).  With fewer than 2 bidders the `{"error": ...}` dictionary is
returned and `analyze_bidder_styles` reads back empty matches.  When the
first bidder has tokens, the matrix has all 8 columns (missing features of
other rows default to 0 via `.get(fname, 0)`, and sklearn's cosine of an
all-zero row is 0), and the oracle supplies the resulting match list. -/
def analyze_bidder_styles (styloMatches : List (String × String) → List StyloMatch)
    (bidder_texts : List (String × List (String × String))) :
    Except String StylometryAnalysis :=
  let combined := bidder_texts.map (fun bd => (bd.1, joinSpace (bd.2.map (fun dt => dt.2))))
  if combined.length < 2 then .ok { suspicious_style_matches := [] }
  else
    match combined.head? with
    | none => .ok { suspicious_style_matches := [] }
    | some first =>
      if hasNoTokens first.2 then
        .error ("Found array with 0 feature(s) (shape=(" ++ toString combined.length ++
          ", 0)) while a minimum of 1 is required by check_pairwise_arrays.")
      else .ok { suspicious_style_matches := styloMatches combined }

/-! ## Relationship graph (`src/utils/relationship_graph.py`) -/

/-- The evidence payloads `add_relationship` is called with:
`{"similarity_score": s}`, `{field: value}`, or the `{}` default. -/
inductive Evidence where
  | emptyEv : Evidence
  | similarityScore (s : ℚ) : Evidence
  | contactField (field value : String) : Evidence
  deriving DecidableEq

/-- One undirected networkx edge with its attribute dictionary. -/
structure RelEdge where
  u : String
  v : String
  weight : ℚ
  relationships : List String
  evidence : Evidence
  deriving DecidableEq

/-- An undirected networkx graph: insertion-ordered nodes and edges. -/
structure RelGraph where
  nodes : List String
  edges : List RelEdge
  deriving DecidableEq

/-- Whether edge `e` joins `a` and `b` (in either orientation). -/
def edgeJoins (e : RelEdge) (a b : String) : Bool :=
  (e.u = a ∧ e.v = b) ∨ (e.u = b ∧ e.v = a)

/-- `networkx.Graph.add_node` (no-op when the node exists). -/
def addNode (g : RelGraph) (n : String) : RelGraph :=
  if g.nodes.contains n then g else { g with nodes := g.nodes ++ [n] }

/-- `networkx.Graph.has_edge`. -/
def hasEdge (g : RelGraph) (a b : String) : Bool :=
  g.edges.any (fun e => edgeJoins e a b)

/-- The attribute record of the edge between `a` and `b`, if any. -/
def findEdge? (g : RelGraph) (a b : String) : Option RelEdge :=
  g.edges.find? (fun e => edgeJoins e a b)

/-- `RelationshipAnalyzer.add_relationship`.  On an existing edge the weight
becomes the max of old and new, the type is appended to the `relationships`
list, and nothing else of the edge — in particular its `evidence` — is
touched; the `evidence` argument of the later call is dropped.  On a new
edge, nodes are added as needed (`networkx.add_edge`) and the edge is stored
with the given weight, a singleton type list, and the given evidence
(`{}` when `None`). -/
def add_relationship (g : RelGraph) (bidder1 bidder2 : String)
    (relationship_type : String) (weight : ℚ) (evidence : Evidence) : RelGraph :=
  if hasEdge g bidder1 bidder2 then
    { g with edges := g.edges.map (fun e =>
        if edgeJoins e bidder1 bidder2 then
          { e with weight := max e.weight weight
                   relationships := e.relationships ++ [relationship_type] }
        else e) }
  else
    { nodes := ((addNode (addNode g bidder1) bidder2)).nodes
      edges := g.edges ++ [{ u := bidder1, v := bidder2, weight := weight,
                             relationships := [relationship_type], evidence := evidence }] }

/-- One `high_risk_groups` entry. -/
structure RiskGroup where
  bidders : List String
  size : ℕ
  type : String
  deriving DecidableEq

/-- Result record of `RelationshipAnalyzer.analyze_bidder_network`
(`centrality_scores` and the visualization payload `graph_data` are not
inspected by any property below; the built graph itself is kept in
`graph`). -/
structure NetworkAnalysis where
  num_bidders : ℕ
  num_relationships : ℕ
  network_density : ℚ
  communities : List (List String)
  suspicious_cliques : List (List String)
  high_risk_groups : List RiskGroup
  graph : RelGraph
  deriving DecidableEq

/-- The graph-construction part of
`RelationshipAnalyzer.analyze_bidder_network`: all bidders as nodes, one
`document_similarity` edge per cross-bidder similarity pair, then
`shared_email` / `shared_phone` / `shared_address` edges of weight 0.8
between every two bidders sharing a non-empty verbatim field value
(grouping in contact-list order, pairs in nested-loop order). -/
def buildNetwork (bidders : List String)
    (similarity_data : Option SimilarityAnalysis)
    (contact_data : List (String × List (String × String))) : RelGraph :=
  let g0 : RelGraph := { nodes := (List.foldl addNode { nodes := [], edges := [] } bidders).nodes,
                         edges := [] }
  let g1 :=
    match similarity_data with
    | none => g0
    | some sd =>
      sd.cross_bidder_similarities.foldl (fun g p =>
        add_relationship g p.bidder1 p.bidder2 "document_similarity" p.similarity
          (Evidence.similarityScore p.similarity)) g0
  ["email", "phone", "address"].foldl (fun g field =>
    let groups := contact_data.foldl (fun acc bi =>
      match dictGet? bi.2 field with
      | some v => if v = "" then acc else dictAppend acc v bi.1
      | none => acc) []
    groups.foldl (fun g vg =>
      if vg.2.length > 1 then
        (upperPairs vg.2).foldl (fun g bb =>
          add_relationship g bb.1 bb.2 ("shared_" ++ field) (4 / 5)
            (Evidence.contactField field vg.1)) g
      else g) g) g1

/-- `RelationshipAnalyzer.analyze_bidder_network`, with the networkx
community detection (`greedy_modularity_communities`, set-to-list
conversion included) and clique enumeration (`find_cliques`) as oracles.
`detect_communities` keeps only communities of size ≥ 2 and returns `[]`
outright on graphs with fewer than 2 nodes; cliques are filtered to size
≥ `min_size = 3`.  The signal construction in the caller divides by
`len(bidder_ids)`, which raises if the bidder list is empty while a
high-risk group exists; that is handled at the node, not here. -/
def analyze_bidder_network
    (communities : RelGraph → List (List String))
    (cliques : RelGraph → List (List String))
    (bidders : List String)
    (similarity_data : Option SimilarityAnalysis)
    (contact_data : List (String × List (String × String))) : NetworkAnalysis :=
  let g := buildNetwork bidders similarity_data contact_data
  let comms := if g.nodes.length < 2 then []
               else (communities g).filter (fun c => c.length > 1)
  let cls := (cliques g).filter (fun c => c.length ≥ 3)
  let n := g.nodes.length
  let m := g.edges.length
  { num_bidders := n
    num_relationships := m
    network_density := if n > 1 then (2 * m : ℚ) / ((n : ℚ) * ((n : ℚ) - 1)) else 0
    communities := comms
    suspicious_cliques := cls
    high_risk_groups :=
      (comms.filter (fun c => c.length ≥ 3)).map
        (fun c => { bidders := c, size := c.length, type := "community" }) ++
      cls.map (fun c => { bidders := c, size := c.length, type := "clique" })
    graph := g }

/-! ## Document processing (`src/utils/document_processor.py`) -/

/-- `Path(p).suffix.lower() == ".pdf"`: the extension after the last dot,
lowercased (directory-separator and hidden-file subtleties of `pathlib` are
not modelled; no property below exercises them). -/
def isPdfPath (p : String) : Bool :=
  p.data.contains '.' &&
    ((p.data.reverse.takeWhile (fun c => c ≠ '.')).reverse.map Char.toLower
      = ['p', 'd', 'f'])

/-- `process_tender_documents`, with pdfplumber as the oracle
`extractText`.  `extract_text_from_pdf` catches every exception and returns
`""`, so extraction never propagates an error; non-PDF paths map to `""`
with a warning. -/
def process_tender_documents (extractText : String → String) (paths : List String) :
    List (String × String) :=
  paths.foldl (fun acc p =>
    dictInsert acc p (if isPdfPath p then extractText p else "")) []

/-! ## Pipeline state and nodes (`src/agents/nodes.py`, `src/state/agent_state.py`) -/

/-- `TenderAnalysisState`.  The LangGraph merge writes exactly the keys a
node returns and leaves the rest; each node below performs its own merge
explicitly.  The `messages` channel is not modelled. -/
structure AnalysisState where
  tender_id : String
  tender_description : String
  bidders : List BidderInfo
  uploaded_documents : List String
  extracted_text : List (String × String)
  price_analysis : Option PriceAnalysis
  similarity_analysis : Option SimilarityAnalysis
  stylometry_analysis : Option StylometryAnalysis
  relationship_graph : Option NetworkAnalysis
  risk_signals : List RiskSignal
  overall_risk_score : ℚ
  current_step : String
  analysis_complete : Bool
  error : Option String
  deriving DecidableEq

/-- The external collaborators of one run, fixed for its duration:
* `extractText`: pdfplumber text per path (its own failures already
  collapsed to `""` inside `extract_text_from_pdf`);
* `sim`: cosine similarity of the embedding vectors of two texts;
* `embedFailure`: an exception `model.encode` raises, if any;
* `styloMatches`: the spaCy/sklearn style-similarity pairs for the
  per-bidder combined texts;
* `communities`, `cliques`: the networkx algorithms (including the
  set-to-list conversion order);
* `llm`: the ChatOpenAI summarizer outcome. -/
structure Providers where
  extractText : String → String
  sim : String → String → ℚ
  embedFailure : Option String
  styloMatches : List (String × String) → List StyloMatch
  communities : RelGraph → List (List String)
  cliques : RelGraph → List (List String)
  llm : Except String String

/-- Node 1, `extract_documents_node`.  Its `except` branch (which would set
`current_step = "document_extraction_failed"`) is unreachable:
`process_tender_documents` catches provider failures internally. -/
def extract_documents_node (P : Providers) (s : AnalysisState) : AnalysisState :=
  { s with
    extracted_text := process_tender_documents P.extractText s.uploaded_documents
    current_step := "document_extraction" }

/-- The nested dictionary `{bidder_id: {doc_path: text}}` both analysis
nodes build from the state (only documents present in `extracted_text` are
kept; a repeated `bidder_id` resets and refills its entry, so the last
occurrence wins). -/
def bidderTextsOf (s : AnalysisState) : List (String × List (String × String)) :=
  s.bidders.foldl (fun acc b =>
    dictInsert acc b.bidder_id
      (b.documents.foldl (fun d doc =>
        match dictGet? s.extracted_text doc with
        | some t => dictInsert d doc t
        | none => d) [])) []

/-- The risk signals `analyze_prices_node` emits: one `price_anomaly`
signal iff the risk score is strictly positive, affecting every bidder ID
of the price dictionary. -/
def priceSignals (bidder_prices : List (String × ℚ)) (r : PriceAnalysis) :
    List RiskSignal :=
  if r.risk_score > 0 then
    [{ signal_type := "price_anomaly"
       severity := r.severity
       score := r.risk_score
       description := "Price analysis detected " ++ toString r.risk_indicators.length
         ++ " risk indicators"
       affected_bidders := bidder_prices.map (fun p => p.1) }]
  else []

/-- Node 2, `analyze_prices_node`.  Its `except` branch returns only the
`error` key (no `current_step`, no slot); the only exception the body can
raise is the `ZeroDivisionError` of `detect_cover_bidding`. -/
def analyze_prices_node (s : AnalysisState) : AnalysisState :=
  let bp := dictOf (s.bidders.map (fun b => (b.bidder_id, b.bid_amount)))
  match analyze_price_patterns bp with
  | .error e => { s with error := some e }
  | .ok r =>
    { s with
      price_analysis := some r
      risk_signals := s.risk_signals ++ priceSignals bp r
      current_step := "price_analysis" }

/-- The risk signals `analyze_similarity_node` emits: one
`document_similarity` signal per entry of `high_risk_pairs` (similarity
> 0.85), with severity `high` iff similarity > 0.9. -/
def simSignals (res : SimilarityAnalysis) : List RiskSignal :=
  res.high_risk_pairs.map (fun p =>
    { signal_type := "document_similarity"
      severity := if p.similarity > (9 / 10 : ℚ) then "high" else "medium"
      score := p.similarity
      description := "High similarity detected between " ++ p.bidder1 ++ " and " ++ p.bidder2
      affected_bidders := [p.bidder1, p.bidder2] })

/-- Node 3, `analyze_similarity_node`.  Its `except` branch returns only
the `error` key. -/
def analyze_similarity_node (P : Providers) (s : AnalysisState) : AnalysisState :=
  match analyze_bidder_documents P.sim P.embedFailure (bidderTextsOf s) with
  | .error e => { s with error := some e }
  | .ok res =>
    { s with
      similarity_analysis := some res
      risk_signals := s.risk_signals ++ simSignals res
      current_step := "similarity_analysis" }

/-- The risk signals `analyze_stylometry_node` emits. -/
def styloSignals (r : StylometryAnalysis) : List RiskSignal :=
  r.suspicious_style_matches.map (fun m =>
    { signal_type := "stylometry"
      severity := if m.similarity > (17 / 20 : ℚ) then "high" else "medium"
      score := m.similarity
      description := "Similar writing style detected between " ++ m.doc1 ++ " and " ++ m.doc2
      affected_bidders := [m.doc1, m.doc2] })

/-- Node 4, `analyze_stylometry_node`.  On the reachable sklearn
`ValueError` (≥ 2 bidders, first combined text without tokens) the
`except` branch returns only the `error` key — overwriting any previously
recorded error and leaving the stylometry slot null. -/
def analyze_stylometry_node (P : Providers) (s : AnalysisState) : AnalysisState :=
  match analyze_bidder_styles P.styloMatches (bidderTextsOf s) with
  | .error e => { s with error := some e }
  | .ok r =>
    { s with
      stylometry_analysis := some r
      risk_signals := s.risk_signals ++ styloSignals r
      current_step := "stylometry_analysis" }

/-- The risk signals `build_relationship_graph_node` emits: one
`relationship_network` signal per high-risk group, severity `high` iff the
group has ≥ 4 members, score `min(size / bidderCount, 1)`. -/
def relationshipSignals (bidderCount : ℕ) (groups : List RiskGroup) : List RiskSignal :=
  groups.map (fun g =>
    { signal_type := "relationship_network"
      severity := if g.size ≥ 4 then "high" else "medium"
      score := min ((g.size : ℚ) / (bidderCount : ℚ)) 1
      description := "Detected " ++ g.type ++ " of " ++ toString g.size ++ " connected bidders"
      affected_bidders := g.bidders })

/-- Node 5, `build_relationship_graph_node`.  The signal score divides by
`len(bidder_ids)`: with an empty bidder list and a nonempty group list the
body raises `ZeroDivisionError` and the `except` branch returns only the
`error` key. -/
def build_relationship_graph_node (P : Providers) (s : AnalysisState) : AnalysisState :=
  let bidder_ids := s.bidders.map (fun b => b.bidder_id)
  let contact_data := s.bidders.foldl (fun acc b =>
    if b.contact_info.isEmpty then acc else dictInsert acc b.bidder_id b.contact_info) []
  let res := analyze_bidder_network P.communities P.cliques bidder_ids
    s.similarity_analysis contact_data
  if bidder_ids.isEmpty ∧ ¬ res.high_risk_groups.isEmpty then
    { s with error := some "division by zero" }
  else
    { s with
      relationship_graph := some res
      risk_signals := s.risk_signals ++ relationshipSignals bidder_ids.length res.high_risk_groups
      current_step := "relationship_graph" }

/-- Node 6, `generate_report_node`.  The LLM is invoked before anything is
computed, so on an LLM failure the node returns only the `error` key:
`overall_risk_score`, `analysis_complete` and `current_step` keep their
previous values.  On success the overall risk score is the maximum signal
score (`0.0` with no signals) and the run is marked complete; the `error`
key is not among the returned keys, so a previously recorded error
persists. -/
def generate_report_node (P : Providers) (s : AnalysisState) : AnalysisState :=
  match P.llm with
  | .error e => { s with error := some e }
  | .ok _ =>
    { s with
      overall_risk_score := qmaxD (s.risk_signals.map (fun sig => sig.score))
      current_step := "report_generation"
      analysis_complete := true }

/-- `should_continue` (the conditional edge of `create_procurement_agent`).
All three of its outcomes are wired to `END`, so it never alters the
executed stage sequence. -/
def should_continue (s : AnalysisState) : String :=
  if s.error.isSome then "error"
  else if s.analysis_complete then "complete"
  else "continue"

/-- The stage sequence of `create_procurement_agent`: every edge between
stages is unconditional, so all six nodes run exactly once, in this order,
regardless of recorded errors. -/
def pipelineStages (P : Providers) : List (AnalysisState → AnalysisState) :=
  [extract_documents_node P, analyze_prices_node, analyze_similarity_node P,
   analyze_stylometry_node P, build_relationship_graph_node P, generate_report_node P]

/-- One full LangGraph invocation. -/
def runPipeline (P : Providers) (s : AnalysisState) : AnalysisState :=
  (pipelineStages P).foldl (fun st f => f st) s

/-- The initial state built by `run_analysis` (`src/agents/workflow.py`). -/
def initialState (tender_id tender_description : String)
    (bidders : List BidderInfo) (uploaded_documents : List String) : AnalysisState :=
  { tender_id := tender_id
    tender_description := tender_description
    bidders := bidders
    uploaded_documents := uploaded_documents
    extracted_text := []
    price_analysis := none
    similarity_analysis := none
    stylometry_analysis := none
    relationship_graph := none
    risk_signals := []
    overall_risk_score := 0
    current_step := "initialized"
    analysis_complete := false
    error := none }

/-- `run_analysis`, the library entry point: build the initial state and
invoke the compiled workflow.  It performs no input validation of any
kind. -/
def run_analysis (P : Providers) (tender_id tender_description : String)
    (bidders : List BidderInfo) (uploaded_documents : List String) : AnalysisState :=
  runPipeline P (initialState tender_id tender_description bidders uploaded_documents)

/-! ## Concrete provider environments used in the theorems below -/

/-- The community/clique answer the networkx algorithms give on an edgeless
graph: every node is its own (singleton) community and its own maximal
clique. -/
def singletonGroups (g : RelGraph) : List (List String) :=
  g.nodes.map (fun n => [n])

/-- A healthy provider environment: extraction yields empty text,
embeddings are orthogonal, the style oracle reports no matches, the
networkx oracles answer as they do on edgeless graphs, and the LLM
succeeds.  The style oracle is only consulted when the first bidder's
combined text has tokens (otherwise the engine takes its `< 2` or
`ValueError` path); in the runs below that reach it, either the remaining
rows are all-zero feature vectors whose sklearn cosine is 0 (no match), or
the stated conclusions do not read the match list. -/
def benignProviders : Providers :=
  { extractText := fun _ => ""
    sim := fun _ _ => 0
    embedFailure := none
    styloMatches := fun _ => []
    communities := singletonGroups
    cliques := singletonGroups
    llm := .ok "Report text" }

/-! ## Helper lemmas -/

/-- `find?` commutes with a map that does not change which elements satisfy
the predicate. -/
theorem find_map_pred_stable (f : α → α) (p : α → Bool)
    (hf : ∀ x, p (f x) = p x) :
    ∀ l : List α, (l.map f).find? p = (l.find? p).map f := by
  intro l
  induction l with
  | nil => rfl
  | cons x xs ih =>
    cases hx : p x with
    | true => simp [List.find?, hf, hx]
    | false => simpa [List.find?, hf, hx] using ih

/-- Filtering away the satisfying elements is unaffected by a map that only
rewrites satisfying elements and preserves the predicate. -/
theorem filter_map_pred_stable (f : α → α) (p : α → Bool)
    (hf : ∀ x, p (f x) = p x) (hid : ∀ x, p x = false → f x = x) :
    ∀ l : List α, (l.map f).filter (fun x => ! p x) = l.filter (fun x => ! p x) := by
  intro l
  induction l with
  | nil => rfl
  | cons x xs ih =>
    cases hx : p x with
    | true => simpa [List.filter, hf, hx] using ih
    | false => simpa [List.filter, hf, hx, hid x hx] using ih

/-- A structure update of the weight/relationship fields keeps the edge
endpoints. -/
theorem edgeJoins_update (x : RelEdge) (w' : ℚ) (r' : List String) (a b : String) :
    edgeJoins { x with weight := w', relationships := r' } a b = edgeJoins x a b := rfl

/-- `" ".join` of a single text is that text. -/
theorem joinSpace_singleton (s : String) : joinSpace [s] = s := by
  simp [joinSpace]

/-- `" ".join` of no texts is the empty string. -/
theorem joinSpace_nil : joinSpace [] = "" := rfl

/-! ## C10: merging a duplicate relationship edge -/

/-- **C10** (confirmed).  When a relationship edge is added between two
bidders that already share an edge, only the weight (maximum of old and
new) and the relationship-type list (new type appended) change; the stored
evidence remains that of the first insertion and the newly passed evidence
is discarded; the node list and every other edge are untouched. -/
theorem C10_duplicate_edge_merge
    (g : RelGraph) (b1 b2 t : String) (w : ℚ) (ev : Evidence) (e : RelEdge)
    (h : findEdge? g b1 b2 = some e) :
    findEdge? (add_relationship g b1 b2 t w ev) b1 b2 =
        some { e with weight := max e.weight w,
                      relationships := e.relationships ++ [t] } ∧
    (add_relationship g b1 b2 t w ev).nodes = g.nodes ∧
    (add_relationship g b1 b2 t w ev).edges.filter (fun x => ! edgeJoins x b1 b2) =
      g.edges.filter (fun x => ! edgeJoins x b1 b2) := by
  have h' : List.find? (fun x => edgeJoins x b1 b2) g.edges = some e := h
  have hmem : e ∈ g.edges := List.mem_of_find?_eq_some h'
  have hpe0 := List.find?_some h'
  have hpe : edgeJoins e b1 b2 = true := hpe0
  have hhas : hasEdge g b1 b2 = true := by
    unfold hasEdge
    rw [List.any_eq_true]
    exact ⟨e, hmem, hpe⟩
  set upd : RelEdge → RelEdge := fun x =>
    if edgeJoins x b1 b2 then
      { x with weight := max x.weight w, relationships := x.relationships ++ [t] }
    else x with hupd
  have hf : ∀ x, edgeJoins (upd x) b1 b2 = edgeJoins x b1 b2 := by
    intro x
    rw [hupd]
    by_cases hx : edgeJoins x b1 b2 = true
    · simp [hx, edgeJoins_update]
    · simp [Bool.not_eq_true] at hx
      simp [hx]
  have hid : ∀ x, edgeJoins x b1 b2 = false → upd x = x := by
    intro x hx
    simp [hupd, hx]
  have hmain : add_relationship g b1 b2 t w ev = { g with edges := g.edges.map upd } := by
    unfold add_relationship
    rw [hhas]
    simp [hupd]
  refine ⟨?_, ?_, ?_⟩
  · rw [hmain]
    show (g.edges.map upd).find? (fun x => edgeJoins x b1 b2) = _
    rw [find_map_pred_stable upd (fun x => edgeJoins x b1 b2) hf]
    rw [h']
    simp [hupd, hpe]
  · rw [hmain]
  · rw [hmain]
    exact filter_map_pred_stable upd (fun x => edgeJoins x b1 b2) hf hid g.edges

/-- **C10 witness**: a concrete duplicate insertion.  The first insertion
stored similarity evidence; re-adding the pair as a `shared_email` edge
with weight 0.8 raises the weight, appends the type, and keeps the original
similarity evidence (the email evidence is dropped). -/
theorem C10_witness :
    findEdge?
        (add_relationship
          { nodes := ["A", "B"],
            edges := [{ u := "A", v := "B", weight := 1 / 2,
                        relationships := ["document_similarity"],
                        evidence := Evidence.similarityScore (1 / 2) }] }
          "A" "B" "shared_email" (4 / 5) (Evidence.contactField "email" "x"))
        "A" "B" =
      some { u := "A", v := "B",
             weight := max (1 / 2) (4 / 5),
             relationships := ["document_similarity", "shared_email"],
             evidence := Evidence.similarityScore (1 / 2) } ∧
    (add_relationship
          { nodes := ["A", "B"],
            edges := [{ u := "A", v := "B", weight := 1 / 2,
                        relationships := ["document_similarity"],
                        evidence := Evidence.similarityScore (1 / 2) }] }
          "A" "B" "shared_email" (4 / 5) (Evidence.contactField "email" "x")).nodes
      = ["A", "B"] ∧
    (add_relationship
          { nodes := ["A", "B"],
            edges := [{ u := "A", v := "B", weight := 1 / 2,
                        relationships := ["document_similarity"],
                        evidence := Evidence.similarityScore (1 / 2) }] }
          "A" "B" "shared_email" (4 / 5) (Evidence.contactField "email" "x")).edges.filter
        (fun x => ! edgeJoins x "A" "B")
      = [] :=
  C10_duplicate_edge_merge _ "A" "B" "shared_email" (4 / 5)
    (Evidence.contactField "email" "x")
    { u := "A", v := "B", weight := 1 / 2,
      relationships := ["document_similarity"],
      evidence := Evidence.similarityScore (1 / 2) }
    (by simp [findEdge?, List.find?, edgeJoins])

/-! ## C9: risk signals are append-only across stages -/

/-- **C9** (confirmed).  Every stage of the pipeline returns a state whose
risk-signal list is the input list followed by the stage's (possibly empty)
new signals; no stage removes or reorders existing signals. -/
theorem C9_signals_append_only (P : Providers) (f : AnalysisState → AnalysisState)
    (hf : f ∈ pipelineStages P) (s : AnalysisState) :
    ∃ t, (f s).risk_signals = s.risk_signals ++ t := by
  simp only [pipelineStages, List.mem_cons, List.mem_singleton, List.not_mem_nil,
    or_false] at hf
  rcases hf with h | h | h | h | h | h <;> subst h
  · exact ⟨[], by simp [extract_documents_node]⟩
  · cases hE : analyze_price_patterns
        (dictOf (s.bidders.map (fun b => (b.bidder_id, b.bid_amount)))) with
    | error e => exact ⟨[], by simp [analyze_prices_node, hE]⟩
    | ok r =>
      have hnode : (analyze_prices_node s).risk_signals = s.risk_signals ++
          priceSignals (dictOf (s.bidders.map (fun b => (b.bidder_id, b.bid_amount)))) r := by
        simp [analyze_prices_node, hE]
      exact ⟨_, hnode⟩
  · cases hE : analyze_bidder_documents P.sim P.embedFailure (bidderTextsOf s) with
    | error e => exact ⟨[], by simp [analyze_similarity_node, hE]⟩
    | ok res =>
      have hnode : (analyze_similarity_node P s).risk_signals = s.risk_signals ++
          simSignals res := by
        simp [analyze_similarity_node, hE]
      exact ⟨_, hnode⟩
  · cases hE : analyze_bidder_styles P.styloMatches (bidderTextsOf s) with
    | error e => exact ⟨[], by simp [analyze_stylometry_node, hE]⟩
    | ok r =>
      have hnode : (analyze_stylometry_node P s).risk_signals = s.risk_signals ++
          styloSignals r := by
        simp [analyze_stylometry_node, hE]
      exact ⟨_, hnode⟩
  · simp only [build_relationship_graph_node]
    split
    · exact ⟨[], by simp⟩
    · exact ⟨_, rfl⟩
  · cases hE : P.llm with
    | error e => exact ⟨[], by simp [generate_report_node, hE]⟩
    | ok r => exact ⟨[], by simp [generate_report_node, hE]⟩

/-- **C9 witness**: the price stage applied to a concrete initial state
extends the (empty) signal list by appending. -/
theorem C9_witness :
    ∃ t, (analyze_prices_node (initialState "T-1" "" [] [])).risk_signals =
      (initialState "T-1" "" [] []).risk_signals ++ t :=
  C9_signals_append_only benignProviders analyze_prices_node
    (by simp [pipelineStages]) (initialState "T-1" "" [] [])

/-! ## C6: fewer than three bids -/

/-- **C6 counterexample.**  With the single bid 777 the outlier detection
indeed reports insufficient data, but — contrary to the claim that no
`price_anomaly` signal is emitted and no analysis is performed — the price
stage still runs the scoring (the missing coefficient of variation is read
as `0 < 0.1`) and emits one `price_anomaly` signal of score 0.3. -/
theorem C6_counterexample :
    detect_outliers 2 [(777 : ℚ)] = none ∧
    (analyze_prices_node (initialState "T-1" ""
        [{ bidder_id := "B1", name := "Solo", bid_amount := 777,
           documents := [], contact_info := [] }] [])).risk_signals.map
      (fun sig => (sig.signal_type, sig.severity, sig.score, sig.affected_bidders)) =
      [("price_anomaly", "low", 3 / 10, ["B1"])] := by
  constructor
  · simp [detect_outliers]
  · simp [analyze_prices_node, analyze_price_patterns, detect_outliers,
      detect_cover_bidding, roundNumberRatio, qdivisible, priceSignals,
      dictOf, dictInsert, initialState, Bind.bind, Except.bind, cvLtTenth]
    norm_num

/-- **C6** (corrected).  With fewer than 3 bids, outlier detection returns
the insufficient-data indicator; however the price stage is not skipped:
the missing coefficient of variation is read back as `0`, so the risk
score is at least 0.3 and a `price_anomaly` signal is emitted whenever the
stage completes. -/
theorem C6_insufficient_data (bp : List (String × ℚ)) (hlen : bp.length < 3) :
    detect_outliers 2 (bp.map (fun p => p.2)) = none ∧
    ∀ r, analyze_price_patterns bp = .ok r →
      3 / 10 ≤ r.risk_score ∧ priceSignals bp r ≠ [] := by
  have hlen' : (bp.map (fun p => p.2)).length < 3 := by simpa using hlen
  have hout : detect_outliers 2 (bp.map (fun p => p.2)) = none := by
    unfold detect_outliers
    rw [if_pos hlen']
  refine ⟨hout, ?_⟩
  intro r hr
  unfold analyze_price_patterns at hr
  cases hc : detect_cover_bidding (1 / 20) bp with
  | error e => rw [hc] at hr; simp [Bind.bind, Except.bind] at hr
  | ok c =>
    rw [hc] at hr
    simp only [Bind.bind, Except.bind, hout, Except.ok.injEq] at hr
    subst hr
    have hscore : (3 : ℚ) / 10 ≤
        min ((3 : ℚ) / 10 +
          (if c.suspicious_patterns.isEmpty then 0 else 2 / 5) +
          (if roundNumberRatio (bp.map (fun p => p.2)) > 1 / 2 then 1 / 5 else 0)) 1 := by
      apply le_min _ (by norm_num)
      have h2 : (0 : ℚ) ≤ if c.suspicious_patterns.isEmpty then 0 else 2 / 5 := by
        split <;> norm_num
      have h3 : (0 : ℚ) ≤
          if roundNumberRatio (bp.map (fun p => p.2)) > 1 / 2 then 1 / 5 else 0 := by
        split <;> norm_num
      linarith
    constructor
    · simpa using hscore
    · have hpos : (0 : ℚ) < (3 : ℚ) / 10 := by norm_num
      simp only [priceSignals]
      rw [if_pos]
      · simp
      · exact lt_of_lt_of_le hpos (by simpa using hscore)

/-- **C6 witness**: the amended statement applied to the single-bid input
`{"B1": 777}`. -/
theorem C6_witness :
    detect_outliers 2 ([("B1", (777 : ℚ))].map (fun p => p.2)) = none :=
  (C6_insufficient_data [("B1", 777)] (by norm_num)).1

/-! ## C5: the price scoring rule -/

/-- **C5 counterexample.**  For the two-bid input `{"B1": 100, "B2": 300}`
the coefficient of variation of the bid list is `0.5 ≥ 0.1`, so the score
the claim prescribes (`claimedPriceRiskScore`, the spec's wording) is 0 and
no signal should be emitted; the code nevertheless scores 0.3 (the missing
cv of the skipped outlier analysis is read as 0) and the stage emits a
signal with that score. -/
theorem C5_counterexample :
    claimedPriceRiskScore [("B1", (100 : ℚ)), ("B2", 300)] = 0 ∧
    ((analyze_prices_node (initialState "T-1" ""
        [{ bidder_id := "B1", name := "A", bid_amount := 100,
           documents := [], contact_info := [] },
         { bidder_id := "B2", name := "B", bid_amount := 300,
           documents := [], contact_info := [] }] [])).risk_signals.map
      (fun sig => sig.score)) = [3 / 10] := by
  constructor
  · simp [claimedPriceRiskScore, cvLtTenth, qmean, qvariance,
      detect_cover_bidding, roundNumberRatio, qdivisible,
      List.insertionSort, List.orderedInsert, upperPairs]
    norm_num
  · simp [analyze_prices_node, analyze_price_patterns, detect_outliers,
      detect_cover_bidding, roundNumberRatio, qdivisible, priceSignals,
      dictOf, dictInsert, initialState, Bind.bind, Except.bind, cvLtTenth,
      qmean, qvariance, List.insertionSort, List.orderedInsert, upperPairs]
    norm_num

/-- The severity ladder `high / medium / low` of
`analyze_price_patterns`, characterized as intervals of the score. -/
theorem severityLadder (s : ℚ) :
    (((if s > 7 / 10 then "high" else if s > 2 / 5 then "medium" else "low") = "high")
        ↔ s > 7 / 10) ∧
    (((if s > 7 / 10 then "high" else if s > 2 / 5 then "medium" else "low") = "medium")
        ↔ (s > 2 / 5 ∧ s ≤ 7 / 10)) ∧
    (((if s > 7 / 10 then "high" else if s > 2 / 5 then "medium" else "low") = "low")
        ↔ s ≤ 2 / 5) := by
  by_cases h1 : s > 7 / 10
  · refine ⟨by simp [h1], ?_, ?_⟩
    · simp only [if_pos h1]
      constructor
      · intro hcon; simp at hcon
      · intro hcon; linarith [hcon.2]
    · simp only [if_pos h1]
      constructor
      · intro hcon; simp at hcon
      · intro hcon; linarith
  · by_cases h2 : s > 2 / 5
    · refine ⟨?_, ?_, ?_⟩
      · simp only [if_neg h1, if_pos h2]
        constructor
        · intro hcon; simp at hcon
        · intro hcon; exact absurd hcon h1
      · simp only [if_neg h1, if_pos h2, true_iff]
        exact ⟨h2, by linarith [not_lt.mp h1]⟩
      · simp only [if_neg h1, if_pos h2]
        constructor
        · intro hcon; simp at hcon
        · intro hcon; linarith
    · refine ⟨?_, ?_, ?_⟩
      · simp only [if_neg h1, if_neg h2]
        constructor
        · intro hcon; simp at hcon
        · intro hcon; exact absurd hcon h1
      · simp only [if_neg h1, if_neg h2]
        constructor
        · intro hcon; simp at hcon
        · intro hcon; exact absurd hcon.1 h2
      · simp only [if_neg h1, if_neg h2, true_iff]
        linarith [not_lt.mp h2]

/-- The signal rule of `analyze_prices_node`: a (single) `price_anomaly`
signal is emitted iff the score is strictly positive, and it carries the
analysis's severity and score and all bidder IDs. -/
theorem priceSignals_spec (bp : List (String × ℚ)) (r : PriceAnalysis) :
    (priceSignals bp r ≠ [] ↔ 0 < r.risk_score) ∧
    (∀ sig ∈ priceSignals bp r, sig.signal_type = "price_anomaly" ∧
      sig.severity = r.severity ∧ sig.score = r.risk_score ∧
      sig.affected_bidders = bp.map (fun p => p.1)) := by
  unfold priceSignals
  by_cases hp : r.risk_score > 0
  · rw [if_pos hp]
    refine ⟨by simpa using hp, ?_⟩
    intro sig hsig
    simp at hsig
    subst hsig
    simp
  · rw [if_neg hp]
    refine ⟨by simpa using not_lt.mp hp, ?_⟩
    intro sig hsig
    simp at hsig

/-- **C5** (corrected).  The price risk score follows the claimed recipe
with one amendment: the `+0.3` test reads the *stored* coefficient of
variation, which is the list's `σ/μ` only when the outlier analysis ran
(≥ 3 bids) and `0` — hence below `0.1` — otherwise; severity and the
emit-iff-positive signal rule are as claimed, with `affected_bidders`
listing every bidder ID. -/
theorem C5_price_scoring (bp : List (String × ℚ)) (r : PriceAnalysis)
    (h : analyze_price_patterns bp = .ok r) :
    r.risk_score = min
      ((if (bp.map (fun p => p.2)).length < 3 ∨
           cvLtTenth (qmean (bp.map (fun p => p.2))) (qvariance (bp.map (fun p => p.2)))
        then (3 : ℚ) / 10 else 0) +
       (if r.cover_bidding_analysis.suspicious_patterns.isEmpty then 0 else 2 / 5) +
       (if roundNumberRatio (bp.map (fun p => p.2)) > 1 / 2 then 1 / 5 else 0)) 1 ∧
    (r.severity = "high" ↔ r.risk_score > 7 / 10) ∧
    (r.severity = "medium" ↔ (r.risk_score > 2 / 5 ∧ r.risk_score ≤ 7 / 10)) ∧
    (r.severity = "low" ↔ r.risk_score ≤ 2 / 5) ∧
    (priceSignals bp r ≠ [] ↔ 0 < r.risk_score) ∧
    (∀ sig ∈ priceSignals bp r, sig.signal_type = "price_anomaly" ∧
      sig.severity = r.severity ∧ sig.score = r.risk_score ∧
      sig.affected_bidders = bp.map (fun p => p.1)) := by
  unfold analyze_price_patterns at h
  cases hc : detect_cover_bidding (1 / 20) bp with
  | error e => rw [hc] at h; simp [Bind.bind, Except.bind] at h
  | ok c =>
    rw [hc] at h
    simp only [Bind.bind, Except.bind, Except.ok.injEq] at h
    subst h
    have hcv : (match detect_outliers 2 (bp.map (fun p => p.2)) with
        | none => true
        | some s => cvLtTenth s.mean s.variance) =
        ((bp.map (fun p => p.2)).length < 3 ∨
          cvLtTenth (qmean (bp.map (fun p => p.2))) (qvariance (bp.map (fun p => p.2))) :
          Bool) := by
      unfold detect_outliers
      by_cases hl : bp.length < 3
      · simp [hl]
      · simp [hl]
    refine ⟨?_, (severityLadder _).1, (severityLadder _).2.1, (severityLadder _).2.2,
      (priceSignals_spec _ _).1, (priceSignals_spec _ _).2⟩
    simp [hcv]

/-- **C5 witness**: the amended scoring applied to `{"B1": 100, "B2": 300}`
(the emitted-signal criterion at a concrete input). -/
theorem C5_witness :
    priceSignals [("B1", (100 : ℚ)), ("B2", 300)]
        { outlier_analysis := none,
          cover_bidding_analysis := { bounds := some (100, 300), suspicious_patterns := [] },
          round_number_ratio := 0, risk_score := 3 / 10,
          risk_indicators := ["Low price variation (potential coordination)"],
          severity := "low" } ≠ [] ↔
      (0 : ℚ) <
        ({ outlier_analysis := none,
           cover_bidding_analysis := { bounds := some (100, 300), suspicious_patterns := [] },
           round_number_ratio := 0, risk_score := 3 / 10,
           risk_indicators := ["Low price variation (potential coordination)"],
           severity := "low" } : PriceAnalysis).risk_score :=
  (C5_price_scoring [("B1", (100 : ℚ)), ("B2", 300)] _
    (by simp [analyze_price_patterns, detect_outliers, detect_cover_bidding,
          roundNumberRatio, qdivisible, Bind.bind, Except.bind, cvLtTenth,
          List.insertionSort, List.orderedInsert, upperPairs]
        norm_num)).2.2.2.2.1

/-! ## C7: similarity pair recording vs. signal emission -/

/-- With a healthy embedding provider, `find_similar_documents` never
fails, and every returned pair meets the threshold. -/
theorem find_similar_documents_ok (sim : String → String → ℚ)
    (texts : List (String × String)) (threshold : ℚ) :
    ∃ l, find_similar_documents sim none texts threshold = .ok l ∧
      ∀ x ∈ l, threshold ≤ x.2.2 := by
  unfold find_similar_documents
  by_cases hlen : texts.length < 2
  · rw [if_pos hlen]
    exact ⟨[], rfl, by simp⟩
  · rw [if_neg hlen]
    refine ⟨_, rfl, ?_⟩
    intro x hx
    have hx' : x ∈ (upperPairs texts).filterMap (fun dd =>
        if sim dd.1.2 dd.2.2 ≥ threshold then some (dd.1.1, dd.2.1, sim dd.1.2 dd.2.2)
        else none) :=
      (List.Perm.mem_iff (List.perm_insertionSort _ _)).mp hx
    rw [List.mem_filterMap] at hx'
    obtain ⟨dd, _, hdd⟩ := hx'
    by_cases hth : sim dd.1.2 dd.2.2 ≥ threshold
    · rw [if_pos hth] at hdd
      cases hdd
      exact hth
    · rw [if_neg hth] at hdd
      cases hdd

/-- With a healthy embedding provider, `analyze_bidder_documents` succeeds;
its `high_risk_pairs` are exactly the cross-bidder pairs above 0.85, and
every recorded cross-bidder pair has similarity ≥ 0.70 and two distinct
bidder IDs. -/
theorem analyze_bidder_documents_ok (sim : String → String → ℚ)
    (bt : List (String × List (String × String))) :
    ∃ res, analyze_bidder_documents sim none bt = .ok res ∧
      res.high_risk_pairs =
        res.cross_bidder_similarities.filter (fun p => p.similarity > 17 / 20) ∧
      ∀ p ∈ res.cross_bidder_similarities,
        7 / 10 ≤ p.similarity ∧ p.bidder1 ≠ p.bidder2 := by
  obtain ⟨l, hl, hmem⟩ := find_similar_documents_ok sim
    (dictOf (bt.flatMap (fun bd => bd.2.map (fun dt => (bd.1 ++ ":" ++ dt.1, dt.2)))))
    (7 / 10)
  cases hres : analyze_bidder_documents sim none bt with
  | error e =>
    unfold analyze_bidder_documents at hres
    simp [Bind.bind, Except.bind, hl] at hres
  | ok res =>
    unfold analyze_bidder_documents at hres
    simp only [Bind.bind, Except.bind, hl, Except.ok.injEq] at hres
    subst hres
    refine ⟨_, rfl, rfl, ?_⟩
    intro p hp
    simp only [List.mem_filterMap] at hp
    obtain ⟨x, hxl, hx⟩ := hp
    by_cases hcross : bidderPart x.1 ≠ bidderPart x.2.1
    · rw [if_pos hcross] at hx
      cases hx
      exact ⟨hmem x hxl, hcross⟩
    · rw [if_neg hcross] at hx
      cases hx

/-- **C7 counterexample.**  Two bidders, one document each, cosine
similarity 0.75: the cross-bidder pair is ≥ the 0.70 threshold and is
recorded in the result slot, but — contrary to the claim — no
`document_similarity` signal is emitted, because signals are generated only
from `high_risk_pairs` (similarity > 0.85). -/
theorem C7_counterexample :
    (analyze_similarity_node { benignProviders with sim := fun _ _ => 3 / 4 }
        { initialState "T-1" ""
            [{ bidder_id := "B1", name := "A", bid_amount := 1,
               documents := ["da.pdf"], contact_info := [] },
             { bidder_id := "B2", name := "B", bid_amount := 1,
               documents := ["db.pdf"], contact_info := [] }]
            ["da.pdf", "db.pdf"] with
          extracted_text := [("da.pdf", "ta"), ("db.pdf", "tb")] }).similarity_analysis =
      some { total_comparisons := 1,
             cross_bidder_similarities :=
               [{ bidder1 := "B1", bidder2 := "B2", document1 := "B1:da.pdf",
                  document2 := "B2:db.pdf", similarity := 3 / 4 }],
             high_risk_pairs := [] } ∧
    (analyze_similarity_node { benignProviders with sim := fun _ _ => 3 / 4 }
        { initialState "T-1" ""
            [{ bidder_id := "B1", name := "A", bid_amount := 1,
               documents := ["da.pdf"], contact_info := [] },
             { bidder_id := "B2", name := "B", bid_amount := 1,
               documents := ["db.pdf"], contact_info := [] }]
            ["da.pdf", "db.pdf"] with
          extracted_text := [("da.pdf", "ta"), ("db.pdf", "tb")] }).risk_signals = [] := by
  have e1 : ("B1" ++ ":" ++ "da.pdf" : String) = "B1:da.pdf" := rfl
  have e2 : ("B2" ++ ":" ++ "db.pdf" : String) = "B2:db.pdf" := rfl
  have e3 : bidderPart "B1:da.pdf" = "B1" := rfl
  have e4 : bidderPart "B2:db.pdf" = "B2" := rfl
  have q1 : (7 : ℚ) / 10 ≤ 3 / 4 := by norm_num
  have q2 : ¬ ((3 : ℚ) / 4 > 17 / 20) := by norm_num
  constructor
  · simp [analyze_similarity_node, analyze_bidder_documents, find_similar_documents,
      benignProviders, bidderTextsOf, dictOf, dictInsert, dictGet?, initialState,
      upperPairs, Bind.bind, Except.bind, List.insertionSort, List.orderedInsert,
      e1, e2, e3, e4, q1, q2, List.find?, List.filterMap_cons]
  · simp [analyze_similarity_node, analyze_bidder_documents, find_similar_documents,
      benignProviders, bidderTextsOf, dictOf, dictInsert, dictGet?, initialState,
      upperPairs, Bind.bind, Except.bind, List.insertionSort, List.orderedInsert,
      e1, e2, e3, e4, q1, q2, List.find?, List.filterMap_cons, simSignals]

/-- **C7** (corrected).  With a healthy embedding provider the similarity
stage records every cross-bidder pair with similarity ≥ 0.70 in its result
slot, but emits one `document_similarity` signal only per pair with
similarity **> 0.85** (the `high_risk_pairs` slice); for those, severity is
`high` iff similarity > 0.90, the score is the similarity and
`affected_bidders` are the two (distinct) bidder IDs. -/
theorem C7_similarity_signal_rule (P : Providers) (s : AnalysisState)
    (hembed : P.embedFailure = none) :
    ∃ res, (analyze_similarity_node P s).similarity_analysis = some res ∧
      (analyze_similarity_node P s).risk_signals = s.risk_signals ++
        (res.cross_bidder_similarities.filter (fun p => p.similarity > 17 / 20)).map
          (fun p =>
            { signal_type := "document_similarity"
              severity := if p.similarity > (9 / 10 : ℚ) then "high" else "medium"
              score := p.similarity
              description := "High similarity detected between " ++ p.bidder1 ++
                " and " ++ p.bidder2
              affected_bidders := [p.bidder1, p.bidder2] }) ∧
      ∀ p ∈ res.cross_bidder_similarities,
        7 / 10 ≤ p.similarity ∧ p.bidder1 ≠ p.bidder2 := by
  obtain ⟨res, hres, hhigh, hcross⟩ := analyze_bidder_documents_ok P.sim (bidderTextsOf s)
  have hscrut : analyze_bidder_documents P.sim P.embedFailure (bidderTextsOf s) =
      .ok res := by rw [hembed]; exact hres
  refine ⟨res, ?_, ?_, hcross⟩
  · simp [analyze_similarity_node, hscrut]
  · have : (analyze_similarity_node P s).risk_signals = s.risk_signals ++ simSignals res := by
      simp [analyze_similarity_node, hscrut]
    rw [this, simSignals, hhigh]

/-- **C7 witness**: the amended statement applied to a concrete healthy
environment and an empty tender. -/
theorem C7_witness :
    ∃ res, (analyze_similarity_node benignProviders
        (initialState "W-7" "" [] [])).similarity_analysis = some res ∧
      (analyze_similarity_node benignProviders
          (initialState "W-7" "" [] [])).risk_signals =
        (initialState "W-7" "" [] []).risk_signals ++
        (res.cross_bidder_similarities.filter (fun p => p.similarity > 17 / 20)).map
          (fun p =>
            { signal_type := "document_similarity"
              severity := if p.similarity > (9 / 10 : ℚ) then "high" else "medium"
              score := p.similarity
              description := "High similarity detected between " ++ p.bidder1 ++
                " and " ++ p.bidder2
              affected_bidders := [p.bidder1, p.bidder2] }) ∧
      ∀ p ∈ res.cross_bidder_similarities,
        7 / 10 ≤ p.similarity ∧ p.bidder1 ≠ p.bidder2 :=
  C7_similarity_signal_rule benignProviders (initialState "W-7" "" [] []) rfl

/-! ## C3 and C4: the report stage -/

/-- The price analysis of the two-bid input `{B1: 100000, B2: 105000}`:
no outlier run (2 < 3 bids, cv defaults to 0), no cover pattern, both bids
round, score `0.3 + 0.2 = 0.5`, severity `medium`. -/
theorem price_two_bids :
    analyze_price_patterns [("B1", (100000 : ℚ)), ("B2", 105000)] =
      .ok { outlier_analysis := none
            cover_bidding_analysis := { bounds := some (100000, 105000),
                                        suspicious_patterns := [] }
            round_number_ratio := 1
            risk_score := 1 / 2
            risk_indicators := ["Low price variation (potential coordination)",
                                "High proportion of round number bids"]
            severity := "medium" } := by
  simp [analyze_price_patterns, detect_outliers, detect_cover_bidding, roundNumberRatio,
    qdivisible, cvLtTenth, qmean, qvariance, qpercentile, upperPairs,
    List.insertionSort, List.orderedInsert, Bind.bind, Except.bind]
  norm_num

/-- The price analysis of three identical bids of 100000: variance 0 (so
cv = 0), no outlier flags, no cover pattern, all bids round, score
`0.3 + 0.2 = 0.5`, severity `medium`. -/
theorem price_three_identical :
    analyze_price_patterns [("B1", (100000 : ℚ)), ("B2", 100000), ("B3", 100000)] =
      .ok { outlier_analysis := some
              { mean := 100000, median := 100000, variance := 0
                z_score_outliers := [false, false, false]
                iqr_outliers := [false, false, false]
                price_min := 100000, price_max := 100000 }
            cover_bidding_analysis := { bounds := some (100000, 100000),
                                        suspicious_patterns := [] }
            round_number_ratio := 1
            risk_score := 1 / 2
            risk_indicators := ["Low price variation (potential coordination)",
                                "High proportion of round number bids"]
            severity := "medium" } := by
  simp [analyze_price_patterns, detect_outliers, detect_cover_bidding, roundNumberRatio,
    qdivisible, cvLtTenth, qmean, qvariance, qpercentile, upperPairs,
    List.insertionSort, List.orderedInsert, Bind.bind, Except.bind]
  norm_num

/-- The extraction stage never touches `analysis_complete` or
`overall_risk_score`. -/
theorem extract_keeps_flags (P : Providers) (s : AnalysisState) :
    (extract_documents_node P s).analysis_complete = s.analysis_complete ∧
    (extract_documents_node P s).overall_risk_score = s.overall_risk_score := by
  simp [extract_documents_node]

/-- The price stage never touches `analysis_complete` or
`overall_risk_score` (in either outcome). -/
theorem prices_keeps_flags (s : AnalysisState) :
    (analyze_prices_node s).analysis_complete = s.analysis_complete ∧
    (analyze_prices_node s).overall_risk_score = s.overall_risk_score := by
  cases hE : analyze_price_patterns
      (dictOf (s.bidders.map (fun b => (b.bidder_id, b.bid_amount)))) with
  | error e => simp [analyze_prices_node, hE]
  | ok r => simp [analyze_prices_node, hE]

/-- The similarity stage never touches `analysis_complete` or
`overall_risk_score` (in either outcome). -/
theorem similarity_keeps_flags (P : Providers) (s : AnalysisState) :
    (analyze_similarity_node P s).analysis_complete = s.analysis_complete ∧
    (analyze_similarity_node P s).overall_risk_score = s.overall_risk_score := by
  cases hE : analyze_bidder_documents P.sim P.embedFailure (bidderTextsOf s) with
  | error e => simp [analyze_similarity_node, hE]
  | ok res => simp [analyze_similarity_node, hE]

/-- The stylometry stage never touches `analysis_complete` or
`overall_risk_score` (in either outcome). -/
theorem stylometry_keeps_flags (P : Providers) (s : AnalysisState) :
    (analyze_stylometry_node P s).analysis_complete = s.analysis_complete ∧
    (analyze_stylometry_node P s).overall_risk_score = s.overall_risk_score := by
  cases hE : analyze_bidder_styles P.styloMatches (bidderTextsOf s) with
  | error e => simp [analyze_stylometry_node, hE]
  | ok r => simp [analyze_stylometry_node, hE]

/-- The relationship stage never touches `analysis_complete` or
`overall_risk_score` (in either outcome). -/
theorem relationship_keeps_flags (P : Providers) (s : AnalysisState) :
    (build_relationship_graph_node P s).analysis_complete = s.analysis_complete ∧
    (build_relationship_graph_node P s).overall_risk_score = s.overall_risk_score := by
  simp only [build_relationship_graph_node]
  split
  · simp
  · simp

set_option maxHeartbeats 1600000 in
/-- **C3 counterexample.**  Bidder B1 submits one document extracting to
non-empty text, B2 none, so every stage before summarization succeeds in
the real program (the style feature matrix has 8 columns from B1; B2's
all-zero row has sklearn cosine 0, so the oracle's empty match list is the
real answer); only the LLM call fails.  Contrary to the claim
(`analysis_complete = true`, empty narrative, non-fatal), the run ends
with `analysis_complete = false` and the LLM error recorded, although
every result slot of the earlier stages is present. -/
theorem C3_counterexample :
    (run_analysis { benignProviders with
        extractText := fun _ => "Tender document text",
        llm := .error "LLM unavailable" } "T-1" ""
        [{ bidder_id := "B1", name := "A", bid_amount := 100000,
           documents := ["a.pdf"], contact_info := [] },
         { bidder_id := "B2", name := "B", bid_amount := 105000,
           documents := [], contact_info := [] }] ["a.pdf"]).analysis_complete = false ∧
    (run_analysis { benignProviders with
        extractText := fun _ => "Tender document text",
        llm := .error "LLM unavailable" } "T-1" ""
        [{ bidder_id := "B1", name := "A", bid_amount := 100000,
           documents := ["a.pdf"], contact_info := [] },
         { bidder_id := "B2", name := "B", bid_amount := 105000,
           documents := [], contact_info := [] }] ["a.pdf"]).error = some "LLM unavailable" ∧
    (run_analysis { benignProviders with
        extractText := fun _ => "Tender document text",
        llm := .error "LLM unavailable" } "T-1" ""
        [{ bidder_id := "B1", name := "A", bid_amount := 100000,
           documents := ["a.pdf"], contact_info := [] },
         { bidder_id := "B2", name := "B", bid_amount := 105000,
           documents := [], contact_info := [] }] ["a.pdf"]).price_analysis.isSome = true ∧
    (run_analysis { benignProviders with
        extractText := fun _ => "Tender document text",
        llm := .error "LLM unavailable" } "T-1" ""
        [{ bidder_id := "B1", name := "A", bid_amount := 100000,
           documents := ["a.pdf"], contact_info := [] },
         { bidder_id := "B2", name := "B", bid_amount := 105000,
           documents := [], contact_info := [] }] ["a.pdf"]).similarity_analysis.isSome = true ∧
    (run_analysis { benignProviders with
        extractText := fun _ => "Tender document text",
        llm := .error "LLM unavailable" } "T-1" ""
        [{ bidder_id := "B1", name := "A", bid_amount := 100000,
           documents := ["a.pdf"], contact_info := [] },
         { bidder_id := "B2", name := "B", bid_amount := 105000,
           documents := [], contact_info := [] }] ["a.pdf"]).stylometry_analysis.isSome = true ∧
    (run_analysis { benignProviders with
        extractText := fun _ => "Tender document text",
        llm := .error "LLM unavailable" } "T-1" ""
        [{ bidder_id := "B1", name := "A", bid_amount := 100000,
           documents := ["a.pdf"], contact_info := [] },
         { bidder_id := "B2", name := "B", bid_amount := 105000,
           documents := [], contact_info := [] }] ["a.pdf"]).relationship_graph.isSome = true := by
  have ht : hasNoTokens "Tender document text" = false := by decide
  have hpos : (0 : ℚ) < 1 / 2 := by norm_num
  simp [run_analysis, runPipeline, pipelineStages, initialState,
      extract_documents_node, process_tender_documents, isPdfPath,
      analyze_prices_node, price_two_bids, priceSignals, hpos,
      analyze_similarity_node, analyze_bidder_documents, find_similar_documents,
      simSignals, bidderTextsOf,
      analyze_stylometry_node, analyze_bidder_styles, styloSignals,
      joinSpace_singleton, joinSpace_nil, ht,
      build_relationship_graph_node, analyze_bidder_network, buildNetwork,
      relationshipSignals, addNode, singletonGroups,
      generate_report_node, benignProviders,
      dictOf, dictInsert, dictGet?, dictAppend, List.find?,
      upperPairs, List.insertionSort, List.orderedInsert,
      Bind.bind, Except.bind]

/-- **C3** (corrected).  A summarizer (LLM) failure is not non-fatal: the
report node returns only the error, so the run ends with
`analysis_complete = false`, `overall_risk_score` still `0`, and `error`
carrying the LLM message — for every input. -/
theorem C3_llm_failure_fails_run (P : Providers) (tid desc : String)
    (bidders : List BidderInfo) (docs : List String) (msg : String)
    (hllm : P.llm = .error msg) :
    (run_analysis P tid desc bidders docs).analysis_complete = false ∧
    (run_analysis P tid desc bidders docs).overall_risk_score = 0 ∧
    (run_analysis P tid desc bidders docs).error = some msg := by
  have hrun : run_analysis P tid desc bidders docs =
      generate_report_node P
        (build_relationship_graph_node P
          (analyze_stylometry_node P
            (analyze_similarity_node P
              (analyze_prices_node
                (extract_documents_node P (initialState tid desc bidders docs)))))) := by
    simp [run_analysis, runPipeline, pipelineStages]
  rw [hrun]
  simp only [generate_report_node, hllm]
  refine ⟨?_, ?_, by simp⟩
  · rw [(relationship_keeps_flags P _).1, (stylometry_keeps_flags P _).1,
      (similarity_keeps_flags P _).1, (prices_keeps_flags _).1,
      (extract_keeps_flags P _).1]
    rfl
  · rw [(relationship_keeps_flags P _).2, (stylometry_keeps_flags P _).2,
      (similarity_keeps_flags P _).2, (prices_keeps_flags _).2,
      (extract_keeps_flags P _).2]
    rfl

/-- **C3 witness**: the amended statement at a concrete failing-LLM
environment and empty tender. -/
theorem C3_witness :
    (run_analysis { benignProviders with llm := .error "down" } "W-3" "" [] []).analysis_complete
        = false ∧
    (run_analysis { benignProviders with llm := .error "down" } "W-3" "" [] []).overall_risk_score
        = 0 ∧
    (run_analysis { benignProviders with llm := .error "down" } "W-3" "" [] []).error
        = some "down" :=
  C3_llm_failure_fails_run { benignProviders with llm := .error "down" } "W-3" "" [] [] "down" rfl

set_option maxHeartbeats 1600000 in
/-- **C4 counterexample.**  When the LLM call fails, the returned
`overall_risk_score` stays at its initial `0` even though an accumulated
signal has score `1/2`, so it is not the maximum of the signal scores. -/
theorem C4_counterexample :
    qmaxD ((run_analysis { benignProviders with llm := .error "LLM unavailable" } "T-1" ""
        [{ bidder_id := "B1", name := "A", bid_amount := 100000,
           documents := [], contact_info := [] },
         { bidder_id := "B2", name := "B", bid_amount := 100000,
           documents := [], contact_info := [] },
         { bidder_id := "B3", name := "C", bid_amount := 100000,
           documents := [], contact_info := [] }] []).risk_signals.map
      (fun sig => sig.score)) = 1 / 2 ∧
    (run_analysis { benignProviders with llm := .error "LLM unavailable" } "T-1" ""
        [{ bidder_id := "B1", name := "A", bid_amount := 100000,
           documents := [], contact_info := [] },
         { bidder_id := "B2", name := "B", bid_amount := 100000,
           documents := [], contact_info := [] },
         { bidder_id := "B3", name := "C", bid_amount := 100000,
           documents := [], contact_info := [] }] []).overall_risk_score = 0 ∧
    ((0 : ℚ) ≠ 1 / 2) := by
  have h0 : hasNoTokens "" = true := rfl
  have hpos : (0 : ℚ) < 1 / 2 := by norm_num
  refine ⟨?_, ?_, by norm_num⟩ <;>
  · simp [run_analysis, runPipeline, pipelineStages, initialState,
      extract_documents_node, process_tender_documents,
      analyze_prices_node, price_three_identical, priceSignals, hpos, qmaxD,
      analyze_similarity_node, analyze_bidder_documents, find_similar_documents,
      simSignals, bidderTextsOf,
      analyze_stylometry_node, analyze_bidder_styles, styloSignals,
      joinSpace_nil, h0,
      build_relationship_graph_node, analyze_bidder_network, buildNetwork,
      relationshipSignals, addNode, singletonGroups,
      generate_report_node, benignProviders,
      dictOf, dictInsert, dictGet?, dictAppend, List.find?,
      upperPairs, List.insertionSort, List.orderedInsert,
      Bind.bind, Except.bind]

/-- **C4** (corrected).  Whenever the summarizer call succeeds, the
returned `overall_risk_score` is the maximum of the scores of all
accumulated signals (`0` with none); when the summarizer fails it stays at
its initial `0` regardless of the signals (the counterexample). -/
theorem C4_overall_is_max (P : Providers) (tid desc : String)
    (bidders : List BidderInfo) (docs : List String) (rep : String)
    (hllm : P.llm = .ok rep) :
    (run_analysis P tid desc bidders docs).overall_risk_score =
      qmaxD ((run_analysis P tid desc bidders docs).risk_signals.map
        (fun sig => sig.score)) ∧
    ((run_analysis P tid desc bidders docs).risk_signals = [] →
      (run_analysis P tid desc bidders docs).overall_risk_score = 0) := by
  have hrun : run_analysis P tid desc bidders docs =
      generate_report_node P
        (build_relationship_graph_node P
          (analyze_stylometry_node P
            (analyze_similarity_node P
              (analyze_prices_node
                (extract_documents_node P (initialState tid desc bidders docs)))))) := by
    simp [run_analysis, runPipeline, pipelineStages]
  rw [hrun]
  simp only [generate_report_node, hllm]
  refine ⟨by simp, ?_⟩
  intro hempty
  rw [hempty]
  rfl

/-- **C4 witness**: the amended statement at a healthy environment and an
empty tender. -/
theorem C4_witness :
    (run_analysis benignProviders "W-4" "" [] []).overall_risk_score =
      qmaxD ((run_analysis benignProviders "W-4" "" [] []).risk_signals.map
        (fun sig => sig.score)) ∧
    ((run_analysis benignProviders "W-4" "" [] []).risk_signals = [] →
      (run_analysis benignProviders "W-4" "" [] []).overall_risk_score = 0) :=
  C4_overall_is_max benignProviders "W-4" "" [] [] "Report text" rfl

/-! ## C1: a failing stage does not halt the pipeline -/

/-- Shared fact: with a failing embedding provider and a succeeding
summarizer, a two-bidder two-document run records the error, leaves the
similarity slot null, still runs the stylometry and relationship stages,
and finishes complete at `current_step = "report_generation"`. -/
theorem embed_failure_run_facts (P : Providers) (msg rep n1 n2 : String) (a1 a2 : ℚ)
    (hembed : P.embedFailure = some msg) (hllm : P.llm = .ok rep)
    (htext : hasNoTokens (P.extractText "a.pdf") = false) :
    (run_analysis P "T-1" "D"
        [{ bidder_id := "B1", name := n1, bid_amount := a1,
           documents := ["a.pdf"], contact_info := [] },
         { bidder_id := "B2", name := n2, bid_amount := a2,
           documents := ["b.pdf"], contact_info := [] }]
        ["a.pdf", "b.pdf"]).error = some msg ∧
    (run_analysis P "T-1" "D"
        [{ bidder_id := "B1", name := n1, bid_amount := a1,
           documents := ["a.pdf"], contact_info := [] },
         { bidder_id := "B2", name := n2, bid_amount := a2,
           documents := ["b.pdf"], contact_info := [] }]
        ["a.pdf", "b.pdf"]).similarity_analysis = none ∧
    (run_analysis P "T-1" "D"
        [{ bidder_id := "B1", name := n1, bid_amount := a1,
           documents := ["a.pdf"], contact_info := [] },
         { bidder_id := "B2", name := n2, bid_amount := a2,
           documents := ["b.pdf"], contact_info := [] }]
        ["a.pdf", "b.pdf"]).stylometry_analysis.isSome = true ∧
    (run_analysis P "T-1" "D"
        [{ bidder_id := "B1", name := n1, bid_amount := a1,
           documents := ["a.pdf"], contact_info := [] },
         { bidder_id := "B2", name := n2, bid_amount := a2,
           documents := ["b.pdf"], contact_info := [] }]
        ["a.pdf", "b.pdf"]).relationship_graph.isSome = true ∧
    (run_analysis P "T-1" "D"
        [{ bidder_id := "B1", name := n1, bid_amount := a1,
           documents := ["a.pdf"], contact_info := [] },
         { bidder_id := "B2", name := n2, bid_amount := a2,
           documents := ["b.pdf"], contact_info := [] }]
        ["a.pdf", "b.pdf"]).analysis_complete = true ∧
    (run_analysis P "T-1" "D"
        [{ bidder_id := "B1", name := n1, bid_amount := a1,
           documents := ["a.pdf"], contact_info := [] },
         { bidder_id := "B2", name := n2, bid_amount := a2,
           documents := ["b.pdf"], contact_info := [] }]
        ["a.pdf", "b.pdf"]).current_step = "report_generation" := by
  have hbp : dictOf [("B1", a1), ("B2", a2)] = [("B1", a1), ("B2", a2)] := by
    simp [dictOf, dictInsert]
  cases hp : analyze_price_patterns [("B1", a1), ("B2", a2)] with
  | error e =>
    simp [run_analysis, runPipeline, pipelineStages, initialState,
      extract_documents_node, process_tender_documents, isPdfPath,
      analyze_prices_node, hbp, hp,
      analyze_similarity_node, analyze_bidder_documents, find_similar_documents,
      bidderTextsOf, hembed,
      analyze_stylometry_node, analyze_bidder_styles,
      joinSpace_singleton, joinSpace_nil, htext,
      build_relationship_graph_node, analyze_bidder_network, buildNetwork,
      addNode, generate_report_node, hllm,
      dictOf, dictInsert, dictGet?, dictAppend, List.find?,
      Bind.bind, Except.bind]
  | ok r =>
    simp [run_analysis, runPipeline, pipelineStages, initialState,
      extract_documents_node, process_tender_documents, isPdfPath,
      analyze_prices_node, hbp, hp,
      analyze_similarity_node, analyze_bidder_documents, find_similar_documents,
      bidderTextsOf, hembed,
      analyze_stylometry_node, analyze_bidder_styles,
      joinSpace_singleton, joinSpace_nil, htext,
      build_relationship_graph_node, analyze_bidder_network, buildNetwork,
      addNode, generate_report_node, hllm,
      dictOf, dictInsert, dictGet?, dictAppend, List.find?,
      Bind.bind, Except.bind]

/-- **C1 counterexample.**  The embedding provider fails during the
similarity stage of a concrete two-bidder run whose documents extract to
non-empty text (so the later stylometry stage takes its normal path; its
oracle answers one match at similarity 1.0, which is sklearn's cosine of
the two identical combined texts).  Contrary to the claim, the pipeline
does not stop: the error is recorded, but `current_step` is never set to
`similarity_analysis_failed` (it ends as `report_generation`), the later
stylometry and relationship stages still run and write their slots, and
the run even finishes with `analysis_complete = true`. -/
theorem C1_counterexample :
    (run_analysis { benignProviders with
          extractText := fun _ => "Tender document text",
          embedFailure := some "Embedding model unavailable",
          styloMatches := fun _ => [{ doc1 := "B1", doc2 := "B2", similarity := 1 }] }
        "T-1" ""
        [{ bidder_id := "B1", name := "A", bid_amount := 100000,
           documents := ["a.pdf"], contact_info := [] },
         { bidder_id := "B2", name := "B", bid_amount := 105000,
           documents := ["b.pdf"], contact_info := [] }]
        ["a.pdf", "b.pdf"]).error = some "Embedding model unavailable" ∧
    (run_analysis { benignProviders with
          extractText := fun _ => "Tender document text",
          embedFailure := some "Embedding model unavailable",
          styloMatches := fun _ => [{ doc1 := "B1", doc2 := "B2", similarity := 1 }] }
        "T-1" ""
        [{ bidder_id := "B1", name := "A", bid_amount := 100000,
           documents := ["a.pdf"], contact_info := [] },
         { bidder_id := "B2", name := "B", bid_amount := 105000,
           documents := ["b.pdf"], contact_info := [] }]
        ["a.pdf", "b.pdf"]).similarity_analysis = none ∧
    (run_analysis { benignProviders with
          extractText := fun _ => "Tender document text",
          embedFailure := some "Embedding model unavailable",
          styloMatches := fun _ => [{ doc1 := "B1", doc2 := "B2", similarity := 1 }] }
        "T-1" ""
        [{ bidder_id := "B1", name := "A", bid_amount := 100000,
           documents := ["a.pdf"], contact_info := [] },
         { bidder_id := "B2", name := "B", bid_amount := 105000,
           documents := ["b.pdf"], contact_info := [] }]
        ["a.pdf", "b.pdf"]).stylometry_analysis.isSome = true ∧
    (run_analysis { benignProviders with
          extractText := fun _ => "Tender document text",
          embedFailure := some "Embedding model unavailable",
          styloMatches := fun _ => [{ doc1 := "B1", doc2 := "B2", similarity := 1 }] }
        "T-1" ""
        [{ bidder_id := "B1", name := "A", bid_amount := 100000,
           documents := ["a.pdf"], contact_info := [] },
         { bidder_id := "B2", name := "B", bid_amount := 105000,
           documents := ["b.pdf"], contact_info := [] }]
        ["a.pdf", "b.pdf"]).relationship_graph.isSome = true ∧
    (run_analysis { benignProviders with
          extractText := fun _ => "Tender document text",
          embedFailure := some "Embedding model unavailable",
          styloMatches := fun _ => [{ doc1 := "B1", doc2 := "B2", similarity := 1 }] }
        "T-1" ""
        [{ bidder_id := "B1", name := "A", bid_amount := 100000,
           documents := ["a.pdf"], contact_info := [] },
         { bidder_id := "B2", name := "B", bid_amount := 105000,
           documents := ["b.pdf"], contact_info := [] }]
        ["a.pdf", "b.pdf"]).analysis_complete = true ∧
    (run_analysis { benignProviders with
          extractText := fun _ => "Tender document text",
          embedFailure := some "Embedding model unavailable",
          styloMatches := fun _ => [{ doc1 := "B1", doc2 := "B2", similarity := 1 }] }
        "T-1" ""
        [{ bidder_id := "B1", name := "A", bid_amount := 100000,
           documents := ["a.pdf"], contact_info := [] },
         { bidder_id := "B2", name := "B", bid_amount := 105000,
           documents := ["b.pdf"], contact_info := [] }]
        ["a.pdf", "b.pdf"]).current_step = "report_generation" :=
  embed_failure_run_facts
    { benignProviders with
        extractText := fun _ => "Tender document text",
        embedFailure := some "Embedding model unavailable",
        styloMatches := fun _ => [{ doc1 := "B1", doc2 := "B2", similarity := 1 }] }
    "Embedding model unavailable" "Report text" "A" "B" 100000 105000 rfl rfl (by decide)

set_option maxHeartbeats 1600000 in
/-- **C1** (corrected).  When a mid-pipeline stage fails (here: the
embedding provider raises in the similarity stage of a two-bidder,
two-document run, with arbitrary bids, names and remaining providers, and
extracted text with at least one token so that no later stage fails in
turn), the orchestrator records the error, but it does **not** stop: the
later stylometry and relationship stages still execute and write their
result slots, `current_step` is never set to `<stage>_failed` (only the
unreachable extraction handler would do that) and ends as
`report_generation`, and the run still finishes with
`analysis_complete = true` when the summarizer succeeds.  Only the failing
stage's own slot stays null, and the recorded error survives only as long
as no later stage fails itself (the stylometry stage's sklearn error on a
token-less first text would overwrite it). -/
theorem C1_failure_does_not_halt (P : Providers) (msg rep n1 n2 : String) (a1 a2 : ℚ)
    (hembed : P.embedFailure = some msg) (hllm : P.llm = .ok rep)
    (htext : hasNoTokens (P.extractText "a.pdf") = false) :
    (run_analysis P "T-1" "D"
        [{ bidder_id := "B1", name := n1, bid_amount := a1,
           documents := ["a.pdf"], contact_info := [] },
         { bidder_id := "B2", name := n2, bid_amount := a2,
           documents := ["b.pdf"], contact_info := [] }]
        ["a.pdf", "b.pdf"]).error = some msg ∧
    (run_analysis P "T-1" "D"
        [{ bidder_id := "B1", name := n1, bid_amount := a1,
           documents := ["a.pdf"], contact_info := [] },
         { bidder_id := "B2", name := n2, bid_amount := a2,
           documents := ["b.pdf"], contact_info := [] }]
        ["a.pdf", "b.pdf"]).similarity_analysis = none ∧
    (run_analysis P "T-1" "D"
        [{ bidder_id := "B1", name := n1, bid_amount := a1,
           documents := ["a.pdf"], contact_info := [] },
         { bidder_id := "B2", name := n2, bid_amount := a2,
           documents := ["b.pdf"], contact_info := [] }]
        ["a.pdf", "b.pdf"]).stylometry_analysis.isSome = true ∧
    (run_analysis P "T-1" "D"
        [{ bidder_id := "B1", name := n1, bid_amount := a1,
           documents := ["a.pdf"], contact_info := [] },
         { bidder_id := "B2", name := n2, bid_amount := a2,
           documents := ["b.pdf"], contact_info := [] }]
        ["a.pdf", "b.pdf"]).relationship_graph.isSome = true ∧
    (run_analysis P "T-1" "D"
        [{ bidder_id := "B1", name := n1, bid_amount := a1,
           documents := ["a.pdf"], contact_info := [] },
         { bidder_id := "B2", name := n2, bid_amount := a2,
           documents := ["b.pdf"], contact_info := [] }]
        ["a.pdf", "b.pdf"]).analysis_complete = true ∧
    (run_analysis P "T-1" "D"
        [{ bidder_id := "B1", name := n1, bid_amount := a1,
           documents := ["a.pdf"], contact_info := [] },
         { bidder_id := "B2", name := n2, bid_amount := a2,
           documents := ["b.pdf"], contact_info := [] }]
        ["a.pdf", "b.pdf"]).current_step = "report_generation" :=
  embed_failure_run_facts P msg rep n1 n2 a1 a2 hembed hllm htext

/-- **C1 witness**: the amended statement at a concrete failing-embedder
environment — the run still completes. -/
theorem C1_witness :
    (run_analysis { benignProviders with
        extractText := fun _ => "text", embedFailure := some "boom" } "T-1" "D"
        [{ bidder_id := "B1", name := "A", bid_amount := 1,
           documents := ["a.pdf"], contact_info := [] },
         { bidder_id := "B2", name := "B", bid_amount := 2,
           documents := ["b.pdf"], contact_info := [] }]
        ["a.pdf", "b.pdf"]).analysis_complete = true :=
  (C1_failure_does_not_halt
    { benignProviders with extractText := fun _ => "text", embedFailure := some "boom" }
    "boom" "Report text" "A" "B" 1 2 rfl rfl (by decide)).2.2.2.2.1

/-! ## C8: the identical-bids seed scenario -/

set_option maxHeartbeats 1600000 in
/-- **C8 counterexample.**  For three bidders bidding 100 000 each (no
documents, no shared contacts) with healthy providers, the run's overall
risk score is `1/2` — not `0.3` as claimed — and the single signal has
severity `medium`, not `low`: 100 000 is divisible by 1000, so the
round-number indicator adds `0.2` on top of the low-variation `0.3`. -/
theorem C8_counterexample :
    (run_analysis benignProviders "T-1" ""
        [{ bidder_id := "B1", name := "A", bid_amount := 100000,
           documents := [], contact_info := [] },
         { bidder_id := "B2", name := "B", bid_amount := 100000,
           documents := [], contact_info := [] },
         { bidder_id := "B3", name := "C", bid_amount := 100000,
           documents := [], contact_info := [] }] []).overall_risk_score = 1 / 2 ∧
    ((1 : ℚ) / 2 ≠ 3 / 10) ∧
    (run_analysis benignProviders "T-1" ""
        [{ bidder_id := "B1", name := "A", bid_amount := 100000,
           documents := [], contact_info := [] },
         { bidder_id := "B2", name := "B", bid_amount := 100000,
           documents := [], contact_info := [] },
         { bidder_id := "B3", name := "C", bid_amount := 100000,
           documents := [], contact_info := [] }] []).risk_signals.map
      (fun sig => sig.severity) = ["medium"] := by
  have h0 : hasNoTokens "" = true := rfl
  have hpos : (0 : ℚ) < 1 / 2 := by norm_num
  refine ⟨?_, by norm_num, ?_⟩ <;>
  · simp [run_analysis, runPipeline, pipelineStages, initialState,
      extract_documents_node, process_tender_documents,
      analyze_prices_node, price_three_identical, priceSignals, hpos, qmaxD,
      analyze_similarity_node, analyze_bidder_documents, find_similar_documents,
      simSignals, bidderTextsOf,
      analyze_stylometry_node, analyze_bidder_styles, styloSignals,
      joinSpace_nil, h0,
      build_relationship_graph_node, analyze_bidder_network, buildNetwork,
      relationshipSignals, addNode, singletonGroups,
      generate_report_node, benignProviders,
      dictOf, dictInsert, dictGet?, dictAppend, List.find?,
      upperPairs, List.insertionSort, List.orderedInsert,
      Bind.bind, Except.bind]

set_option maxHeartbeats 1600000 in
/-- **C8** (corrected).  The identical-bids run yields: coefficient of
variation 0 (variance 0), the low-variation indicator, and — because
100 000 is also round — the round-number indicator; the price risk score is
`0.5` (≥ 0.3 as claimed), the single `price_anomaly` signal has severity
`medium` (not `low`), and the overall risk score is `0.5` (not `0.3`). -/
theorem C8_identical_bids :
    ((run_analysis benignProviders "T-1" ""
        [{ bidder_id := "B1", name := "A", bid_amount := 100000,
           documents := [], contact_info := [] },
         { bidder_id := "B2", name := "B", bid_amount := 100000,
           documents := [], contact_info := [] },
         { bidder_id := "B3", name := "C", bid_amount := 100000,
           documents := [], contact_info := [] }] []).price_analysis.bind
      (fun r => r.outlier_analysis)).map (fun st => st.variance) = some 0 ∧
    (run_analysis benignProviders "T-1" ""
        [{ bidder_id := "B1", name := "A", bid_amount := 100000,
           documents := [], contact_info := [] },
         { bidder_id := "B2", name := "B", bid_amount := 100000,
           documents := [], contact_info := [] },
         { bidder_id := "B3", name := "C", bid_amount := 100000,
           documents := [], contact_info := [] }] []).price_analysis.map
      (fun r => (r.risk_score, r.severity, r.risk_indicators)) =
      some (1 / 2, "medium",
        ["Low price variation (potential coordination)",
         "High proportion of round number bids"]) ∧
    (run_analysis benignProviders "T-1" ""
        [{ bidder_id := "B1", name := "A", bid_amount := 100000,
           documents := [], contact_info := [] },
         { bidder_id := "B2", name := "B", bid_amount := 100000,
           documents := [], contact_info := [] },
         { bidder_id := "B3", name := "C", bid_amount := 100000,
           documents := [], contact_info := [] }] []).risk_signals.map
      (fun sig => (sig.signal_type, sig.severity, sig.score, sig.affected_bidders)) =
      [("price_anomaly", "medium", 1 / 2, ["B1", "B2", "B3"])] ∧
    (run_analysis benignProviders "T-1" ""
        [{ bidder_id := "B1", name := "A", bid_amount := 100000,
           documents := [], contact_info := [] },
         { bidder_id := "B2", name := "B", bid_amount := 100000,
           documents := [], contact_info := [] },
         { bidder_id := "B3", name := "C", bid_amount := 100000,
           documents := [], contact_info := [] }] []).overall_risk_score = 1 / 2 := by
  have h0 : hasNoTokens "" = true := rfl
  have hpos : (0 : ℚ) < 1 / 2 := by norm_num
  refine ⟨?_, ?_, ?_, ?_⟩ <;>
  · simp [run_analysis, runPipeline, pipelineStages, initialState,
      extract_documents_node, process_tender_documents,
      analyze_prices_node, price_three_identical, priceSignals, hpos, qmaxD,
      analyze_similarity_node, analyze_bidder_documents, find_similar_documents,
      simSignals, bidderTextsOf,
      analyze_stylometry_node, analyze_bidder_styles, styloSignals,
      joinSpace_nil, h0,
      build_relationship_graph_node, analyze_bidder_network, buildNetwork,
      relationshipSignals, addNode, singletonGroups,
      generate_report_node, benignProviders,
      dictOf, dictInsert, dictGet?, dictAppend, List.find?,
      upperPairs, List.insertionSort, List.orderedInsert,
      Bind.bind, Except.bind]

/-! ## C2: no input validation at the entry point -/

set_option maxHeartbeats 1600000 in
/-- **C2 counterexample.**  `run_analysis` on an **empty bidder list** (with
healthy providers) does not fail with a validation error before any stage:
no error is recorded at all, the price stage runs and writes its slot, the
run completes, and a `price_anomaly` signal of score 0.3 with an empty
`affected_bidders` list is even emitted. -/
theorem C2_counterexample :
    (run_analysis benignProviders "T-1" "" [] []).error = none ∧
    (run_analysis benignProviders "T-1" "" [] []).price_analysis.isSome = true ∧
    (run_analysis benignProviders "T-1" "" [] []).analysis_complete = true ∧
    (run_analysis benignProviders "T-1" "" [] []).risk_signals.map
      (fun sig => (sig.signal_type, sig.severity, sig.score, sig.affected_bidders)) =
      [("price_anomaly", "low", 3 / 10, ([] : List String))] := by
  refine ⟨?_, ?_, ?_, ?_⟩ <;>
  · simp [run_analysis, runPipeline, pipelineStages, initialState,
      extract_documents_node, process_tender_documents,
      analyze_prices_node, analyze_price_patterns, detect_outliers,
      detect_cover_bidding, roundNumberRatio, qdivisible, priceSignals, cvLtTenth,
      analyze_similarity_node, analyze_bidder_documents, find_similar_documents,
      simSignals, bidderTextsOf,
      analyze_stylometry_node, analyze_bidder_styles, styloSignals, joinSpace,
      build_relationship_graph_node, analyze_bidder_network, buildNetwork,
      relationshipSignals, addNode, singletonGroups,
      generate_report_node, benignProviders,
      dictOf, dictInsert, dictGet?, dictAppend, List.find?,
      upperPairs, List.insertionSort, List.orderedInsert,
      Bind.bind, Except.bind]
    try norm_num

set_option maxHeartbeats 1600000 in
/-- **C2** (corrected).  The entry point performs no input validation.
With a succeeding summarizer and the networkx clique answers for the
node-only graphs (no clique of size ≥ 3, as networkx gives), each of the
three supposedly rejected inputs is accepted and fully analyzed:
(a) the empty bidder list — no error, price slot written, run complete,
and a `price_anomaly` signal (score 0.3, empty `affected_bidders`) is
emitted; (b) a single bidder with a **negative** bid — no error, price slot
written, run complete; (c) two bidders with the **same** `bidder_id` — no
error, run complete, and the duplicate collapses to a single price entry,
so the emitted signal affects only `["B1"]`. -/
theorem C2_no_validation (P : Providers) (rep : String)
    (hllm : P.llm = .ok rep)
    (hcl0 : (P.cliques { nodes := [], edges := [] }).filter
      (fun c => c.length ≥ 3) = [])
    (hcl1 : (P.cliques { nodes := ["B1"], edges := [] }).filter
      (fun c => c.length ≥ 3) = []) :
    ((run_analysis P "T-a" "" [] []).error = none ∧
     (run_analysis P "T-a" "" [] []).price_analysis.isSome = true ∧
     (run_analysis P "T-a" "" [] []).analysis_complete = true ∧
     (run_analysis P "T-a" "" [] []).risk_signals.map
       (fun sig => (sig.signal_type, sig.score, sig.affected_bidders)) =
       [("price_anomaly", 3 / 10, ([] : List String))]) ∧
    ((run_analysis P "T-b" ""
        [{ bidder_id := "B1", name := "Neg", bid_amount := -100,
           documents := [], contact_info := [] }] []).error = none ∧
     (run_analysis P "T-b" ""
        [{ bidder_id := "B1", name := "Neg", bid_amount := -100,
           documents := [], contact_info := [] }] []).price_analysis.isSome = true ∧
     (run_analysis P "T-b" ""
        [{ bidder_id := "B1", name := "Neg", bid_amount := -100,
           documents := [], contact_info := [] }] []).analysis_complete = true) ∧
    ((run_analysis P "T-c" ""
        [{ bidder_id := "B1", name := "One", bid_amount := 100,
           documents := [], contact_info := [] },
         { bidder_id := "B1", name := "Two", bid_amount := 200,
           documents := [], contact_info := [] }] []).error = none ∧
     (run_analysis P "T-c" ""
        [{ bidder_id := "B1", name := "One", bid_amount := 100,
           documents := [], contact_info := [] },
         { bidder_id := "B1", name := "Two", bid_amount := 200,
           documents := [], contact_info := [] }] []).analysis_complete = true ∧
     (run_analysis P "T-c" ""
        [{ bidder_id := "B1", name := "One", bid_amount := 100,
           documents := [], contact_info := [] },
         { bidder_id := "B1", name := "Two", bid_amount := 200,
           documents := [], contact_info := [] }] []).risk_signals.map
       (fun sig => sig.affected_bidders) = [["B1"]]) := by
  refine ⟨?_, ?_, ?_⟩ <;>
  · simp [run_analysis, runPipeline, pipelineStages, initialState,
      extract_documents_node, process_tender_documents,
      analyze_prices_node, analyze_price_patterns, detect_outliers,
      detect_cover_bidding, roundNumberRatio, qdivisible, priceSignals, cvLtTenth,
      analyze_similarity_node, analyze_bidder_documents, find_similar_documents,
      simSignals, bidderTextsOf,
      analyze_stylometry_node, analyze_bidder_styles, styloSignals, joinSpace,
      build_relationship_graph_node, analyze_bidder_network, buildNetwork,
      relationshipSignals, addNode,
      generate_report_node, hllm, hcl0, hcl1,
      dictOf, dictInsert, dictGet?, dictAppend, List.find?,
      upperPairs, List.insertionSort, List.orderedInsert,
      Bind.bind, Except.bind]
    try norm_num

/-- **C2 witness**: the amended statement at the healthy concrete
environment (part (a): the empty bidder list is accepted with no error). -/
theorem C2_witness :
    (run_analysis benignProviders "T-a" "" [] []).error = none :=
  (C2_no_validation benignProviders "Report text" rfl rfl rfl).1.1

end BitShield
